import Mathlib

/-!
Verification of the persistent watcher subsystem of the bpsr-autofish
screen-automation toolkit.

This file shallowly embeds `src/automation/pixel_watcher.py`,
`src/automation/transparent_vision.py` and the pixel-sampling entry point of
`src/automation/vision.py`.  Pure helpers become Lean functions; each watcher's
background polling loop is embedded as a step function (`watch_tick`) over an
explicit state record, driven by a per-iteration environment record (`PixelTick`
/ `TemplateTick`) carrying the wall-clock time of the iteration, the raw screen
sample delivered by the capture layer, and whether the user callback raises on
this iteration.  Machine floats (times, thresholds) are modelled as exact
rationals; colors and pixel coordinates as integers.
-/

namespace BpsrAutofish

/-- An RGB color triple, channels as unbounded integers (Python ints). -/
structure Color where
  r : ℤ
  g : ℤ
  b : ℤ
deriving DecidableEq

/-- The sentinel color returned by `VisionController.get_pixel_color` when the
underlying capture call raises (vision.py: `except Exception: return (0, 0, 0)`). -/
def sentinelColor : Color := ⟨0, 0, 0⟩

/-- `VisionController.get_pixel_color` (vision.py lines 393-412): tries
`pyautogui.pixel(x, y)`; on any exception returns the sentinel `(0, 0, 0)`.
The raw capture outcome is the input: `none` models a raising capture call,
`some c` a successful read of color `c`.  This function itself never fails. -/
def get_pixel_color (capture : Option Color) : Color :=
  capture.getD sentinelColor

/-- The channel list of a color, as iterated by Python's `zip` over 3-tuples. -/
def channels (c : Color) : List ℤ := [c.r, c.g, c.b]

/-- `PersistentPixelWatcher._colors_match` (pixel_watcher.py lines 180-182):
`all(abs(a - b) <= tolerance for a, b in zip(color1, color2))`. -/
def colors_match (color1 color2 : Color) (tolerance : ℤ) : Bool :=
  ((channels color1).zip (channels color2)).all fun p => decide (|p.1 - p.2| ≤ tolerance)

/-- `WatcherEvent` enum (pixel_watcher.py).  `PATTERN_DETECTED` is declared in
the source but no code path ever dispatches on it, so it is omitted here: the
watch loop only dispatches on `COLOR_MATCH` and `COLOR_CHANGE`. -/
inductive WatcherEvent where
  | color_match
  | color_change
deriving DecidableEq

/-- `PixelWatcherConfig` dataclass (pixel_watcher.py lines 22-46).  The callback
is represented by an identifier; its behavior (whether it raises on a given
iteration) is supplied by the tick environment.  The dataclass is mutable in
Python: `enabled` is flipped by `enable_watcher` / `disable_watcher`. -/
structure PixelWatcherConfig where
  x : ℤ
  y : ℤ
  event_type : WatcherEvent
  callback : ℕ
  target_color : Option Color
  tolerance : ℤ
  min_change : ℤ
  check_interval : ℚ
  cooldown : ℚ
  trigger_once : Bool
  name : String
  enabled : Bool
deriving DecidableEq

/-- Mutable state of a `PersistentPixelWatcher` (pixel_watcher.py lines 48-66).
`loop_exited` models whether the background thread has finished: the `finally`
clause of `_watch_loop` has run (setting `running = False`) and the loop body
can never execute again until a fresh `start()` spawns a new thread. -/
structure PersistentPixelWatcher where
  config : PixelWatcherConfig
  running : Bool
  last_trigger_time : ℚ
  trigger_count : ℕ
  last_known_color : Option Color
  loop_exited : Bool
deriving DecidableEq

/-- `PersistentPixelWatcher.__init__`: stopped state; for `COLOR_CHANGE` the
baseline is seeded by an initial `get_pixel_color` call (the raw capture
outcome of that call is `initial_capture`). -/
def PersistentPixelWatcher.init (config : PixelWatcherConfig)
    (initial_capture : Option Color) : PersistentPixelWatcher :=
  { config := config
    running := false
    last_trigger_time := 0
    trigger_count := 0
    last_known_color :=
      if config.event_type = WatcherEvent.color_change then
        some (get_pixel_color initial_capture)
      else none
    loop_exited := false }

/-- `PersistentPixelWatcher.start` (lines 68-77): no-op if already running,
otherwise flips `running` and spawns a fresh thread running `_watch_loop`. -/
def PersistentPixelWatcher.start (w : PersistentPixelWatcher) : PersistentPixelWatcher :=
  if w.running then w else { w with running := true, loop_exited := false }

/-- `PersistentPixelWatcher.stop` (lines 79-91): no-op if not running,
otherwise clears `running` (the join and logging have no state effect; joining
the watcher's own thread from inside `_trigger_event` raises `RuntimeError`,
which the caller's `except Exception` swallows). -/
def PersistentPixelWatcher.stop (w : PersistentPixelWatcher) : PersistentPixelWatcher :=
  if w.running then { w with running := false } else w

/-- `PixelWatcherManager.enable_watcher` / `disable_watcher` write
`watcher.config.enabled` directly (lines 350-360). -/
def PersistentPixelWatcher.set_enabled (w : PersistentPixelWatcher) (b : Bool) :
    PersistentPixelWatcher :=
  { w with config := { w.config with enabled := b } }

/-- The event dict passed to the callback by `_check_color_match` /
`_check_color_change` (plus the metadata added in `_trigger_event`). -/
structure PixelEventData where
  event_type : WatcherEvent
  position : ℤ × ℤ
  current_color : Color
  previous_color : Option Color
  target_color : Option Color
  color_difference : Option ℤ
  trigger_count : ℕ
  timestamp : ℚ
deriving DecidableEq

/-- Environment for one iteration of `_watch_loop`: the wall-clock instant of
the iteration, the raw capture outcome delivered by the screen layer (`none`
models a raising capture call), and whether the user callback raises when
invoked on this iteration. -/
structure PixelTick where
  now : ℚ
  capture : Option Color
  callback_raises : Bool
deriving DecidableEq

/-- Result of one loop iteration: the updated watcher state, the event record
handed to the callback (if a trigger fired), and — as a ghost observation of
operation ordering — the `(trigger_count, last_trigger_time)` pair the watcher
held at the moment the callback was invoked. -/
structure PixelTickResult where
  watcher : PersistentPixelWatcher
  fired : Option PixelEventData
  callback_saw : Option (ℕ × ℚ)
deriving DecidableEq

/-- `PersistentPixelWatcher._trigger_event` (lines 158-178): increments
`trigger_count`, stamps `last_trigger_time`, invokes the callback, then — only
if the callback returned normally — performs the `trigger_once` self-stop.
Any exception raised by the callback is caught and logged, which skips the
self-stop.  Returns the post-bookkeeping watcher and the
`(trigger_count, last_trigger_time)` pair visible to the callback. -/
def PersistentPixelWatcher.trigger_event (w : PersistentPixelWatcher)
    (now : ℚ) (cb_raises : Bool) : PersistentPixelWatcher × (ℕ × ℚ) :=
  let w1 : PersistentPixelWatcher :=
    { w with trigger_count := w.trigger_count + 1, last_trigger_time := now }
  if cb_raises then (w1, (w1.trigger_count, w1.last_trigger_time))
  else if w1.config.trigger_once then (w1.stop, (w1.trigger_count, w1.last_trigger_time))
  else (w1, (w1.trigger_count, w1.last_trigger_time))

/-- `PersistentPixelWatcher._should_check` (lines 112-117). -/
def PersistentPixelWatcher.should_check (w : PersistentPixelWatcher) (now : ℚ) : Bool :=
  if w.config.cooldown ≤ 0 then true
  else decide (now - w.last_trigger_time ≥ w.config.cooldown)

/-- `PersistentPixelWatcher._check_color_match` (lines 119-133).  The Python
guard `if not self.config.target_color: return` is falsy only for `None`
(a 3-tuple such as `(0, 0, 0)` is truthy). -/
def check_color_match (w : PersistentPixelWatcher) (current_color : Color)
    (now : ℚ) (cb_raises : Bool) : PixelTickResult :=
  match w.config.target_color with
  | none => ⟨w, none, none⟩
  | some tc =>
    if colors_match current_color tc w.config.tolerance then
      let ev : PixelEventData :=
        { event_type := WatcherEvent.color_match
          position := (w.config.x, w.config.y)
          current_color := current_color
          previous_color := none
          target_color := some tc
          color_difference := none
          trigger_count := w.trigger_count + 1
          timestamp := now }
      ⟨(w.trigger_event now cb_raises).1, some ev, some (w.trigger_event now cb_raises).2⟩
    else ⟨w, none, none⟩

/-- `sum(abs(a - b) for a, b in zip(self.last_known_color, current_color))`
from `_check_color_change`. -/
def color_diff (last current : Color) : ℤ :=
  (((channels last).zip (channels current)).map fun p => |p.1 - p.2|).sum

/-- `PersistentPixelWatcher._check_color_change` (lines 135-156).  The baseline
`last_known_color` is overwritten with the current sample only after a
triggering comparison (`_trigger_event` catches callback exceptions, so the
assignment after it always runs on the triggering path). -/
def check_color_change (w : PersistentPixelWatcher) (current_color : Color)
    (now : ℚ) (cb_raises : Bool) : PixelTickResult :=
  match w.last_known_color with
  | none => ⟨{ w with last_known_color := some current_color }, none, none⟩
  | some last =>
    if color_diff last current_color ≥ w.config.min_change then
      let ev : PixelEventData :=
        { event_type := WatcherEvent.color_change
          position := (w.config.x, w.config.y)
          current_color := current_color
          previous_color := some last
          target_color := none
          color_difference := some (color_diff last current_color)
          trigger_count := w.trigger_count + 1
          timestamp := now }
      ⟨{ (w.trigger_event now cb_raises).1 with last_known_color := some current_color },
        some ev, some (w.trigger_event now cb_raises).2⟩
    else ⟨w, none, none⟩

/-- One iteration of `PersistentPixelWatcher._watch_loop` (lines 93-110).  The
`while self.running and self.config.enabled` condition is evaluated at the top
of every iteration; when it fails the loop body stops executing and the
`finally` clause sets `running = False` (modelled by `loop_exited := true`).
A finished thread never polls again. -/
def PersistentPixelWatcher.watch_tick (w : PersistentPixelWatcher) (t : PixelTick) :
    PixelTickResult :=
  if w.loop_exited then ⟨w, none, none⟩
  else if w.running && w.config.enabled then
    if w.should_check t.now then
      match w.config.event_type with
      | WatcherEvent.color_match =>
        check_color_match w (get_pixel_color t.capture) t.now t.callback_raises
      | WatcherEvent.color_change =>
        check_color_change w (get_pixel_color t.capture) t.now t.callback_raises
    else ⟨w, none, none⟩
  else ⟨{ w with running := false, loop_exited := true }, none, none⟩

/-- Iterating `_watch_loop` over a list of tick environments, collecting every
event record handed to the callback. -/
def PersistentPixelWatcher.run_ticks :
    PersistentPixelWatcher → List PixelTick → PersistentPixelWatcher × List PixelEventData
  | w, [] => (w, [])
  | w, t :: ts =>
    (((w.watch_tick t).watcher.run_ticks ts).1,
      (w.watch_tick t).fired.toList ++ ((w.watch_tick t).watcher.run_ticks ts).2)

/-! ### Template watchers (transparent_vision.py) -/

/-- `TemplateWatcherEvent` enum (transparent_vision.py lines 18-22). -/
inductive TemplateWatcherEvent where
  | template_found
  | template_lost
  | template_moved
deriving DecidableEq

/-- The slice of the match dict returned by `find_on_screen` that the watcher
state machine consumes: only `match['center']` (for movement distance) and the
dict's truthiness are ever read by the handlers. -/
structure TemplateMatch where
  center : ℤ × ℤ
deriving DecidableEq

/-- `TemplateWatcherConfig` dataclass (transparent_vision.py lines 24-48).
`template_path`, `threshold`, `use_transparency` and `region` are forwarded
verbatim to `find_on_screen`, whose outcome the tick environment supplies. -/
structure TemplateWatcherConfig where
  template_path : String
  callback : ℕ
  event_type : TemplateWatcherEvent
  threshold : ℚ
  use_transparency : Bool
  check_interval : ℚ
  cooldown : ℚ
  trigger_once : Bool
  movement_threshold : ℤ
  name : String
  enabled : Bool
deriving DecidableEq

/-- Mutable state of a `PersistentTemplateWatcher` (lines 50-62), with
`loop_exited` modelling a finished background thread as for the pixel
watcher. -/
structure PersistentTemplateWatcher where
  config : TemplateWatcherConfig
  running : Bool
  last_trigger_time : ℚ
  trigger_count : ℕ
  last_match : Option TemplateMatch
  template_present : Bool
  loop_exited : Bool
deriving DecidableEq

/-- `PersistentTemplateWatcher.__init__` (lines 53-62). -/
def PersistentTemplateWatcher.init (config : TemplateWatcherConfig) :
    PersistentTemplateWatcher :=
  { config := config
    running := false
    last_trigger_time := 0
    trigger_count := 0
    last_match := none
    template_present := false
    loop_exited := false }

/-- `PersistentTemplateWatcher.start` (lines 64-73). -/
def PersistentTemplateWatcher.start (w : PersistentTemplateWatcher) :
    PersistentTemplateWatcher :=
  if w.running then w else { w with running := true, loop_exited := false }

/-- `PersistentTemplateWatcher.stop` (lines 75-90); the screen-capture cleanup
and logging have no effect on watcher state. -/
def PersistentTemplateWatcher.stop (w : PersistentTemplateWatcher) :
    PersistentTemplateWatcher :=
  if w.running then { w with running := false } else w

/-- `TemplateWatcherManager.enable_watcher` / `disable_watcher`
(lines 341-357) write `watcher.config.enabled` directly. -/
def PersistentTemplateWatcher.set_enabled (w : PersistentTemplateWatcher) (b : Bool) :
    PersistentTemplateWatcher :=
  { w with config := { w.config with enabled := b } }

/-- The event dict passed to the callback by the three `_handle_template_*`
methods.  `tmatch` embeds the dict key `'match'`; `movement_distance_sq` stores
the squared Euclidean distance (the source compares
`((dx**2 + dy**2) ** 0.5) >= movement_threshold`, which for a non-negative
threshold is equivalent to the squared comparison used in `dist_ge`).
`template_present` is added by `_trigger_event` from the watcher state current
at trigger time. -/
structure TemplateEventData where
  event_type : TemplateWatcherEvent
  tmatch : Option TemplateMatch
  previous_match : Option TemplateMatch
  movement_distance_sq : Option ℤ
  template_path : String
  timestamp : ℚ
  trigger_count : ℕ
  template_present : Bool
deriving DecidableEq

/-- Environment for one iteration of the template `_watch_loop`: the instant of
the iteration, the outcome of `find_on_screen` (`none` covers both "no match
above threshold" and an internal capture/matching failure, since
`find_on_screen` catches its exceptions and returns `None`), and whether the
user callback raises when invoked on this iteration. -/
structure TemplateTick where
  now : ℚ
  find_result : Option TemplateMatch
  callback_raises : Bool
deriving DecidableEq

/-- Result of one template loop iteration, mirroring `PixelTickResult`. -/
structure TemplateTickResult where
  watcher : PersistentTemplateWatcher
  fired : Option TemplateEventData
  callback_saw : Option (ℕ × ℚ)
deriving DecidableEq

/-- `PersistentTemplateWatcher._trigger_event` (lines 198-219): bookkeeping
first, then the dict update adding `template_present` (the watcher's current
value), then the callback; the `trigger_once` self-stop runs only if the
callback returned normally. -/
def PersistentTemplateWatcher.trigger_event (w : PersistentTemplateWatcher)
    (ev : TemplateEventData) (now : ℚ) (cb_raises : Bool) :
    PersistentTemplateWatcher × TemplateEventData × (ℕ × ℚ) :=
  let w1 : PersistentTemplateWatcher :=
    { w with trigger_count := w.trigger_count + 1, last_trigger_time := now }
  let ev1 : TemplateEventData := { ev with template_present := w1.template_present }
  if cb_raises then (w1, ev1, (w1.trigger_count, w1.last_trigger_time))
  else if w1.config.trigger_once then (w1.stop, ev1, (w1.trigger_count, w1.last_trigger_time))
  else (w1, ev1, (w1.trigger_count, w1.last_trigger_time))

/-- `PersistentTemplateWatcher._should_check` (lines 106-111). -/
def PersistentTemplateWatcher.should_check (w : PersistentTemplateWatcher) (now : ℚ) : Bool :=
  if w.config.cooldown ≤ 0 then true
  else decide (now - w.last_trigger_time ≥ w.config.cooldown)

/-- The movement gate `distance >= movement_threshold` of
`_handle_template_moved`, where `distance = (d2) ** 0.5` with `d2` the
(non-negative) squared center distance: for a threshold `thr ≤ 0` the real
comparison always holds, otherwise it is equivalent to `thr * thr ≤ d2`. -/
def dist_ge (d2 thr : ℤ) : Bool :=
  if thr ≤ 0 then true else decide (thr * thr ≤ d2)

/-- `PersistentTemplateWatcher._handle_template_found` (lines 136-152):
edge-triggered appearance; a disappearance updates state silently. -/
def handle_template_found (w : PersistentTemplateWatcher)
    (m : Option TemplateMatch) (now : ℚ) (cb_raises : Bool) : TemplateTickResult :=
  match m with
  | some mt =>
    if w.template_present then ⟨w, none, none⟩
    else
      let w0 : PersistentTemplateWatcher :=
        { w with template_present := true, last_match := some mt }
      let ev : TemplateEventData :=
        { event_type := TemplateWatcherEvent.template_found
          tmatch := some mt
          previous_match := none
          movement_distance_sq := none
          template_path := w.config.template_path
          timestamp := now
          trigger_count := w0.trigger_count + 1
          template_present := w0.template_present }
      ⟨(w0.trigger_event ev now cb_raises).1, some (w0.trigger_event ev now cb_raises).2.1,
        some (w0.trigger_event ev now cb_raises).2.2⟩
  | none =>
    if w.template_present then
      ⟨{ w with template_present := false, last_match := none }, none, none⟩
    else ⟨w, none, none⟩

/-- `PersistentTemplateWatcher._handle_template_lost` (lines 154-169):
edge-triggered disappearance; an appearance updates state silently. -/
def handle_template_lost (w : PersistentTemplateWatcher)
    (m : Option TemplateMatch) (now : ℚ) (cb_raises : Bool) : TemplateTickResult :=
  match m with
  | none =>
    if w.template_present then
      let w0 : PersistentTemplateWatcher :=
        { w with template_present := false, last_match := none }
      let ev : TemplateEventData :=
        { event_type := TemplateWatcherEvent.template_lost
          tmatch := none
          previous_match := none
          movement_distance_sq := none
          template_path := w.config.template_path
          timestamp := now
          trigger_count := w0.trigger_count + 1
          template_present := w0.template_present }
      ⟨(w0.trigger_event ev now cb_raises).1, some (w0.trigger_event ev now cb_raises).2.1,
        some (w0.trigger_event ev now cb_raises).2.2⟩
    else ⟨w, none, none⟩
  | some mt =>
    if w.template_present then ⟨w, none, none⟩
    else ⟨{ w with template_present := true, last_match := some mt }, none, none⟩

/-- `PersistentTemplateWatcher._handle_template_moved` (lines 171-196): when a
match is found and a previous match exists, a large enough center displacement
triggers; `template_present` and `last_match` are updated after the (possible)
trigger, on every found poll. -/
def handle_template_moved (w : PersistentTemplateWatcher)
    (m : Option TemplateMatch) (now : ℚ) (cb_raises : Bool) : TemplateTickResult :=
  match m with
  | some mt =>
    match w.last_match with
    | some old =>
      let dx : ℤ := old.center.1 - mt.center.1
      let dy : ℤ := old.center.2 - mt.center.2
      let d2 : ℤ := dx * dx + dy * dy
      if dist_ge d2 w.config.movement_threshold then
        let ev : TemplateEventData :=
          { event_type := TemplateWatcherEvent.template_moved
            tmatch := some mt
            previous_match := some old
            movement_distance_sq := some d2
            template_path := w.config.template_path
            timestamp := now
            trigger_count := w.trigger_count + 1
            template_present := w.template_present }
        ⟨{ (w.trigger_event ev now cb_raises).1 with
            template_present := true, last_match := some mt },
          some (w.trigger_event ev now cb_raises).2.1,
          some (w.trigger_event ev now cb_raises).2.2⟩
      else ⟨{ w with template_present := true, last_match := some mt }, none, none⟩
    | none => ⟨{ w with template_present := true, last_match := some mt }, none, none⟩
  | none => ⟨{ w with template_present := false, last_match := none }, none, none⟩

/-- `PersistentTemplateWatcher._check_template` (lines 113-134): dispatch on
the configured event type; `find_on_screen` failures surface as `none`. -/
def check_template (w : PersistentTemplateWatcher) (m : Option TemplateMatch)
    (now : ℚ) (cb_raises : Bool) : TemplateTickResult :=
  match w.config.event_type with
  | TemplateWatcherEvent.template_found => handle_template_found w m now cb_raises
  | TemplateWatcherEvent.template_lost => handle_template_lost w m now cb_raises
  | TemplateWatcherEvent.template_moved => handle_template_moved w m now cb_raises

/-- One iteration of the template `_watch_loop` (lines 92-104), structured
exactly as the pixel loop. -/
def PersistentTemplateWatcher.watch_tick (w : PersistentTemplateWatcher)
    (t : TemplateTick) : TemplateTickResult :=
  if w.loop_exited then ⟨w, none, none⟩
  else if w.running && w.config.enabled then
    if w.should_check t.now then
      check_template w t.find_result t.now t.callback_raises
    else ⟨w, none, none⟩
  else ⟨{ w with running := false, loop_exited := true }, none, none⟩

/-- Iterating the template loop over a list of tick environments. -/
def PersistentTemplateWatcher.run_ticks :
    PersistentTemplateWatcher → List TemplateTick →
      PersistentTemplateWatcher × List TemplateEventData
  | w, [] => (w, [])
  | w, t :: ts =>
    (((w.watch_tick t).watcher.run_ticks ts).1,
      (w.watch_tick t).fired.toList ++ ((w.watch_tick t).watcher.run_ticks ts).2)

/-! ### Managers (PixelWatcherManager, TemplateWatcherManager) -/

/-- Python dict assignment `d[name] = v`: if the key is present its binding is
replaced in place (insertion position preserved), otherwise the pair is
appended.  Keys are unique in every list built through this function. -/
def dict_set {α : Type} : List (String × α) → String → α → List (String × α)
  | [], k, v => [(k, v)]
  | p :: rest, k, v => if p.1 = k then (k, v) :: rest else p :: dict_set rest k v

/-- Python dict lookup `d.get(name)`. -/
def dict_get {α : Type} : List (String × α) → String → Option α
  | [], _ => none
  | p :: rest, k => if p.1 = k then some p.2 else dict_get rest k

/-- The wrapped callback produced by `_wrap_callback` (pixel_watcher.py lines
273-286, transparent_vision.py lines 260-273), run once on one event: the user
callback is invoked first; if it raises, the exception propagates at once and
the global-callback loop is never entered; otherwise every global callback in
the list is invoked with the same event dict, each inside its own
`try/except`, so raising global callbacks are logged and skipped but never
stop the loop or propagate.  Returns the (callback, event) invocations in
order and whether an exception escaped the wrapped callback. -/
def wrapped_callback_run {ε : Type} (user : ℕ) (global_callbacks : List ℕ)
    (raises : ℕ → Bool) (ev : ε) : List (ℕ × ε) × Bool :=
  if raises user then ([(user, ev)], true)
  else ((user, ev) :: global_callbacks.map fun g => (g, ev), false)

/-- `PixelWatcherManager` (pixel_watcher.py lines 184-193).  Callbacks are
identifiers; each stored watcher's `config.callback` records the user callback
wrapped at add time (the wrapping closure reads the manager's live
`global_callbacks` list, see `PixelWatcherManager.fire`). -/
structure PixelWatcherManager where
  watchers : List (String × PersistentPixelWatcher)
  global_callbacks : List ℕ
deriving DecidableEq

/-- `PixelWatcherManager.__init__`. -/
def PixelWatcherManager.empty : PixelWatcherManager :=
  { watchers := [], global_callbacks := [] }

/-- `PixelWatcherManager.add_global_callback` (lines 269-271). -/
def PixelWatcherManager.add_global_callback (m : PixelWatcherManager) (callback : ℕ) :
    PixelWatcherManager :=
  { m with global_callbacks := m.global_callbacks ++ [callback] }

/-- Invoking the wrapped callback of a watcher owned by manager `m`: the
closure created by `_wrap_callback` dereferences `self.global_callbacks` at
call time, so the list used is the manager's list as it stands at the moment
of the trigger, not a snapshot taken at watcher creation. -/
def PixelWatcherManager.fire (m : PixelWatcherManager) (user : ℕ)
    (raises : ℕ → Bool) (ev : PixelEventData) : List (ℕ × PixelEventData) × Bool :=
  wrapped_callback_run user m.global_callbacks raises ev

/-- The `PixelWatcherConfig` built by `add_color_watcher` (lines 215-225). -/
def color_watcher_config (name : String) (x y : ℤ) (target_color : Color)
    (callback : ℕ) (tolerance : ℤ) (check_interval cooldown : ℚ)
    (trigger_once : Bool) : PixelWatcherConfig :=
  { x := x
    y := y
    event_type := WatcherEvent.color_match
    callback := callback
    target_color := some target_color
    tolerance := tolerance
    min_change := 10
    check_interval := check_interval
    cooldown := cooldown
    trigger_once := trigger_once
    name := name
    enabled := true }

/-- The `PixelWatcherConfig` built by `add_change_watcher` (lines 252-261). -/
def change_watcher_config (name : String) (x y : ℤ) (callback : ℕ)
    (min_change : ℤ) (check_interval cooldown : ℚ) (trigger_once : Bool) :
    PixelWatcherConfig :=
  { x := x
    y := y
    event_type := WatcherEvent.color_change
    callback := callback
    target_color := none
    tolerance := 10
    min_change := min_change
    check_interval := check_interval
    cooldown := cooldown
    trigger_once := trigger_once
    name := name
    enabled := true }

/-- `PixelWatcherManager.add_color_watcher` (lines 195-231): builds the config,
constructs the watcher and stores it with `self.watchers[name] = watcher`
(plain dict assignment — no presence check, no exception path), returning the
name.  `initial_capture` is the environment of the constructor's initial
sampling call (unused for a `COLOR_MATCH` watcher). -/
def PixelWatcherManager.add_color_watcher (m : PixelWatcherManager) (name : String)
    (x y : ℤ) (target_color : Color) (callback : ℕ) (tolerance : ℤ)
    (check_interval cooldown : ℚ) (trigger_once : Bool)
    (initial_capture : Option Color) : PixelWatcherManager × String :=
  let watcher := PersistentPixelWatcher.init
    (color_watcher_config name x y target_color callback tolerance
      check_interval cooldown trigger_once) initial_capture
  ({ m with watchers := dict_set m.watchers name watcher }, name)

/-- `PixelWatcherManager.add_change_watcher` (lines 233-267): same storage
policy as `add_color_watcher`. -/
def PixelWatcherManager.add_change_watcher (m : PixelWatcherManager) (name : String)
    (x y : ℤ) (callback : ℕ) (min_change : ℤ) (check_interval cooldown : ℚ)
    (trigger_once : Bool) (initial_capture : Option Color) :
    PixelWatcherManager × String :=
  let watcher := PersistentPixelWatcher.init
    (change_watcher_config name x y callback min_change check_interval cooldown
      trigger_once) initial_capture
  ({ m with watchers := dict_set m.watchers name watcher }, name)

/-- `TemplateWatcherManager` (transparent_vision.py lines 221-228). -/
structure TemplateWatcherManager where
  watchers : List (String × PersistentTemplateWatcher)
  global_callbacks : List ℕ
deriving DecidableEq

/-- `TemplateWatcherManager.__init__`. -/
def TemplateWatcherManager.empty : TemplateWatcherManager :=
  { watchers := [], global_callbacks := [] }

/-- `TemplateWatcherManager.add_global_callback` (lines 256-258). -/
def TemplateWatcherManager.add_global_callback (m : TemplateWatcherManager)
    (callback : ℕ) : TemplateWatcherManager :=
  { m with global_callbacks := m.global_callbacks ++ [callback] }

/-- Invoking the wrapped callback of a template watcher owned by `m`, reading
the manager's live `global_callbacks` list exactly as the pixel manager. -/
def TemplateWatcherManager.fire (m : TemplateWatcherManager) (user : ℕ)
    (raises : ℕ → Bool) (ev : TemplateEventData) :
    List (ℕ × TemplateEventData) × Bool :=
  wrapped_callback_run user m.global_callbacks raises ev

/-- The `TemplateWatcherConfig` built by `add_template_watcher`
(lines 236-248). -/
def template_watcher_config (name template_path : String)
    (event_type : TemplateWatcherEvent) (callback : ℕ) (threshold : ℚ)
    (use_transparency : Bool) (check_interval cooldown : ℚ) (trigger_once : Bool)
    (movement_threshold : ℤ) : TemplateWatcherConfig :=
  { template_path := template_path
    callback := callback
    event_type := event_type
    threshold := threshold
    use_transparency := use_transparency
    check_interval := check_interval
    cooldown := cooldown
    trigger_once := trigger_once
    movement_threshold := movement_threshold
    name := name
    enabled := true }

/-- `TemplateWatcherManager.add_template_watcher` (lines 230-254): builds the
config, constructs the watcher and stores it with
`self.watchers[name] = watcher` — plain dict assignment, no presence check and
no exception path — returning the name. -/
def TemplateWatcherManager.add_template_watcher (m : TemplateWatcherManager)
    (name template_path : String) (event_type : TemplateWatcherEvent)
    (callback : ℕ) (threshold : ℚ) (use_transparency : Bool)
    (check_interval cooldown : ℚ) (trigger_once : Bool)
    (movement_threshold : ℤ) : TemplateWatcherManager × String :=
  let watcher := PersistentTemplateWatcher.init
    (template_watcher_config name template_path event_type callback threshold
      use_transparency check_interval cooldown trigger_once movement_threshold)
  ({ m with watchers := dict_set m.watchers name watcher }, name)

/-! ### Concrete instances used in the claim analyses -/

/-- A started color-match pixel watcher: target RGB(100,100,100), tolerance 5,
interval 0.1 s, no cooldown (used for claim C1). -/
def c1_watcher : PersistentPixelWatcher :=
  (PersistentPixelWatcher.init
    { x := 10, y := 10, event_type := WatcherEvent.color_match, callback := 0
      target_color := some ⟨100, 100, 100⟩, tolerance := 5, min_change := 10
      check_interval := 1/10, cooldown := 0, trigger_once := false
      name := "c1", enabled := true } none).start

/-- The tick after `c1_watcher` is disabled: the sampled pixel (would) match. -/
def c1_result : PixelTickResult :=
  (c1_watcher.set_enabled false).watch_tick ⟨1, some ⟨100, 100, 100⟩, false⟩

/-- Re-enabling after the loop exited, then ticking with a matching sample. -/
def c1_resumed : PixelTickResult :=
  (c1_result.watcher.set_enabled true).watch_tick ⟨2, some ⟨100, 100, 100⟩, false⟩

/-- A started template-found watcher (used for claim C1's witness). -/
def c1_t_watcher : PersistentTemplateWatcher :=
  (PersistentTemplateWatcher.init
    { template_path := "c1.png", callback := 0
      event_type := TemplateWatcherEvent.template_found, threshold := 4/5
      use_transparency := true, check_interval := 1/2, cooldown := 0
      trigger_once := false, movement_threshold := 10
      name := "c1t", enabled := true }).start

/-- A manager holding one color watcher named "dup" (used for claim C2). -/
def c2_m1 : PixelWatcherManager :=
  (PixelWatcherManager.empty.add_color_watcher "dup" 1 1 ⟨1, 2, 3⟩ 0 10 (1/10) 0
    false none).1

/-- The same manager after a second `add_color_watcher` reusing name "dup". -/
def c2_m2 : PixelWatcherManager :=
  (c2_m1.add_color_watcher "dup" 5 6 ⟨9, 9, 9⟩ 1 10 (1/10) 0 false none).1

/-- A running color-change watcher in mid-cooldown: cooldown 1 s, last trigger
at t = 10, baseline RGB(0,0,0) (used for claim C3). -/
def c3_watcher : PersistentPixelWatcher :=
  { config := { x := 3, y := 4, event_type := WatcherEvent.color_change, callback := 0
                target_color := none, tolerance := 10, min_change := 10
                check_interval := 1/10, cooldown := 1, trigger_once := false
                name := "c3", enabled := true }
    running := true
    last_trigger_time := 10
    trigger_count := 1
    last_known_color := some ⟨0, 0, 0⟩
    loop_exited := false }

/-- A poll tick at t = 10.5 (inside the cooldown window) whose sample changed
drastically to RGB(100,100,100). -/
def c3_result : PixelTickResult :=
  c3_watcher.watch_tick ⟨21/2, some ⟨100, 100, 100⟩, false⟩

/-- A running template-found watcher in mid-cooldown: cooldown 1 s, last
trigger at t = 10, template currently absent (used for claim C3's witness). -/
def c3_t_watcher : PersistentTemplateWatcher :=
  { config := { template_path := "c3.png", callback := 0
                event_type := TemplateWatcherEvent.template_found, threshold := 4/5
                use_transparency := true, check_interval := 1/2, cooldown := 1
                trigger_once := false, movement_threshold := 10
                name := "c3t", enabled := true }
    running := true
    last_trigger_time := 10
    trigger_count := 1
    last_match := none
    template_present := false
    loop_exited := false }

/-- An event record as fanned out to callbacks (used for claim C4). -/
def c4_event : PixelEventData :=
  { event_type := WatcherEvent.color_match, position := (10, 10)
    current_color := ⟨100, 100, 100⟩, previous_color := none
    target_color := some ⟨100, 100, 100⟩, color_difference := none
    trigger_count := 1, timestamp := 1 }

/-- A manager with one registered global callback (id 1); the user callback
(id 0) raises (used for claim C4). -/
def c4_manager : PixelWatcherManager :=
  PixelWatcherManager.empty.add_global_callback 1

/-- An event record used for claim C9's witness. -/
def c9_event : PixelEventData :=
  { event_type := WatcherEvent.color_change, position := (2, 2)
    current_color := ⟨9, 9, 9⟩, previous_color := some ⟨0, 0, 0⟩
    target_color := none, color_difference := some 27
    trigger_count := 3, timestamp := 2 }

/-- A template event record used for claim C9's witness. -/
def c9_t_event : TemplateEventData :=
  { event_type := TemplateWatcherEvent.template_found, tmatch := some ⟨(1, 1)⟩
    previous_match := none, movement_distance_sq := none
    template_path := "c9.png", timestamp := 2, trigger_count := 1
    template_present := true }

/-- A manager with one registered global callback (id 9); used for claim C9's
counterexample together with a raising user callback (id 0). -/
def c9_manager : PixelWatcherManager :=
  PixelWatcherManager.empty.add_global_callback 9

/-- A started color-change watcher, no cooldown, min_change 10, baseline
RGB(255,255,255) (used for claim C5). -/
def c5_watcher : PersistentPixelWatcher :=
  (PersistentPixelWatcher.init
    { x := 7, y := 8, event_type := WatcherEvent.color_change, callback := 0
      target_color := none, tolerance := 10, min_change := 10
      check_interval := 1/10, cooldown := 0, trigger_once := false
      name := "c5", enabled := true } (some ⟨255, 255, 255⟩)).start

/-- A tick on which the pixel capture raises (`capture = none`). -/
def c5_result : PixelTickResult := c5_watcher.watch_tick ⟨1, none, false⟩

/-- A started trigger-once color-match watcher (used for claim C6's witness). -/
def c6_watcher : PersistentPixelWatcher :=
  (PersistentPixelWatcher.init
    { x := 1, y := 2, event_type := WatcherEvent.color_match, callback := 0
      target_color := some ⟨50, 60, 70⟩, tolerance := 0, min_change := 10
      check_interval := 1/10, cooldown := 0, trigger_once := true
      name := "c6", enabled := true } none).start

/-- A started trigger-once template-found watcher (claim C6's witness). -/
def c6_t_watcher : PersistentTemplateWatcher :=
  (PersistentTemplateWatcher.init
    { template_path := "t.png", callback := 0
      event_type := TemplateWatcherEvent.template_found, threshold := 4/5
      use_transparency := true, check_interval := 1/2, cooldown := 0
      trigger_once := true, movement_threshold := 10
      name := "c6t", enabled := true }).start

/-- A started color-match watcher with cooldown 2 s (claim C7's witness). -/
def c7_watcher : PersistentPixelWatcher :=
  (PersistentPixelWatcher.init
    { x := 0, y := 0, event_type := WatcherEvent.color_match, callback := 0
      target_color := some ⟨10, 20, 30⟩, tolerance := 5, min_change := 10
      check_interval := 1/20, cooldown := 2, trigger_once := false
      name := "c7", enabled := true } none).start

/-- A started color-match watcher (claim C10's witness). -/
def c10_watcher : PersistentPixelWatcher :=
  (PersistentPixelWatcher.init
    { x := 5, y := 5, event_type := WatcherEvent.color_match, callback := 0
      target_color := some ⟨1, 2, 3⟩, tolerance := 0, min_change := 10
      check_interval := 1/10, cooldown := 0, trigger_once := false
      name := "c10", enabled := true } none).start

/-- A started template-lost watcher currently seeing the template (claim C10's
witness): the template disappearing triggers even when the callback raises. -/
def c10_t_watcher : PersistentTemplateWatcher :=
  { config := { template_path := "u.png", callback := 0
                event_type := TemplateWatcherEvent.template_lost, threshold := 4/5
                use_transparency := true, check_interval := 1/2, cooldown := 0
                trigger_once := false, movement_threshold := 10
                name := "c10t", enabled := true }
    running := true
    last_trigger_time := 0
    trigger_count := 0
    last_match := some ⟨(40, 40)⟩
    template_present := true
    loop_exited := false }

/-! ### Shared helper lemmas -/

theorem trigger_event_spec (w : PersistentPixelWatcher) (now : ℚ) (cb : Bool) :
    (w.trigger_event now cb).1.trigger_count = w.trigger_count + 1 ∧
    (w.trigger_event now cb).1.last_trigger_time = now ∧
    (w.trigger_event now cb).1.config = w.config ∧
    (w.trigger_event now cb).1.last_known_color = w.last_known_color ∧
    (w.trigger_event now cb).1.loop_exited = w.loop_exited ∧
    (w.trigger_event now cb).2 = (w.trigger_count + 1, now) := by
  unfold PersistentPixelWatcher.trigger_event PersistentPixelWatcher.stop
  dsimp only
  split_ifs <;> simp_all

theorem trigger_event_running_of_raises (w : PersistentPixelWatcher) (now : ℚ) :
    (w.trigger_event now true).1.running = w.running := by
  unfold PersistentPixelWatcher.trigger_event
  simp

theorem trigger_event_running_once (w : PersistentPixelWatcher) (now : ℚ)
    (h : w.config.trigger_once = true) :
    (w.trigger_event now false).1.running = false := by
  unfold PersistentPixelWatcher.trigger_event PersistentPixelWatcher.stop
  dsimp only
  split_ifs <;> simp_all

theorem should_check_of_le (w : PersistentPixelWatcher) (now : ℚ)
    (h : w.config.cooldown ≤ now - w.last_trigger_time) :
    w.should_check now = true := by
  unfold PersistentPixelWatcher.should_check
  split
  · rfl
  · simpa using h

theorem should_check_false_of_lt (w : PersistentPixelWatcher) (now : ℚ)
    (h0 : 0 < w.config.cooldown) (h : now - w.last_trigger_time < w.config.cooldown) :
    w.should_check now = false := by
  unfold PersistentPixelWatcher.should_check
  split
  · next hc => exact absurd h0 (not_lt.mpr hc)
  · simpa using h

theorem check_color_match_eq_of_match (w : PersistentPixelWatcher) (c : Color)
    (now : ℚ) (cb : Bool) (tc : Color)
    (ht : w.config.target_color = some tc)
    (hm : colors_match c tc w.config.tolerance = true) :
    check_color_match w c now cb =
      ⟨(w.trigger_event now cb).1,
        some { event_type := WatcherEvent.color_match
               position := (w.config.x, w.config.y)
               current_color := c
               previous_color := none
               target_color := some tc
               color_difference := none
               trigger_count := w.trigger_count + 1
               timestamp := now },
        some (w.trigger_event now cb).2⟩ := by
  unfold check_color_match
  simp [ht, hm]

theorem check_color_match_eq_of_no_match (w : PersistentPixelWatcher) (c : Color)
    (now : ℚ) (cb : Bool) (tc : Color)
    (ht : w.config.target_color = some tc)
    (hm : colors_match c tc w.config.tolerance = false) :
    check_color_match w c now cb = ⟨w, none, none⟩ := by
  unfold check_color_match
  simp [ht, hm]

theorem check_color_change_eq_of_change (w : PersistentPixelWatcher) (c : Color)
    (now : ℚ) (cb : Bool) (last : Color)
    (hl : w.last_known_color = some last)
    (hd : color_diff last c ≥ w.config.min_change) :
    check_color_change w c now cb =
      ⟨{ (w.trigger_event now cb).1 with last_known_color := some c },
        some { event_type := WatcherEvent.color_change
               position := (w.config.x, w.config.y)
               current_color := c
               previous_color := some last
               target_color := none
               color_difference := some (color_diff last c)
               trigger_count := w.trigger_count + 1
               timestamp := now },
        some (w.trigger_event now cb).2⟩ := by
  unfold check_color_change
  simp [hl, hd]

theorem check_color_change_eq_of_small (w : PersistentPixelWatcher) (c : Color)
    (now : ℚ) (cb : Bool) (last : Color)
    (hl : w.last_known_color = some last)
    (hd : ¬ color_diff last c ≥ w.config.min_change) :
    check_color_change w c now cb = ⟨w, none, none⟩ := by
  unfold check_color_change
  simp [hl, hd]

theorem check_color_match_eq_of_none (w : PersistentPixelWatcher) (c : Color)
    (now : ℚ) (cb : Bool) (ht : w.config.target_color = none) :
    check_color_match w c now cb = ⟨w, none, none⟩ := by
  unfold check_color_match
  simp [ht]

theorem check_color_change_eq_of_none (w : PersistentPixelWatcher) (c : Color)
    (now : ℚ) (cb : Bool) (hl : w.last_known_color = none) :
    check_color_change w c now cb =
      ⟨{ w with last_known_color := some c }, none, none⟩ := by
  unfold check_color_change
  simp [hl]

theorem watch_tick_exited (w : PersistentPixelWatcher) (t : PixelTick)
    (h : w.loop_exited = true) : w.watch_tick t = ⟨w, none, none⟩ := by
  unfold PersistentPixelWatcher.watch_tick
  simp [h]

theorem watch_tick_loop_exit (w : PersistentPixelWatcher) (t : PixelTick)
    (hle : w.loop_exited = false) (h : (w.running && w.config.enabled) = false) :
    w.watch_tick t = ⟨{ w with running := false, loop_exited := true }, none, none⟩ := by
  unfold PersistentPixelWatcher.watch_tick
  simp [hle, h]

theorem watch_tick_skip (w : PersistentPixelWatcher) (t : PixelTick)
    (hle : w.loop_exited = false) (hrun : w.running = true)
    (hen : w.config.enabled = true) (hsc : w.should_check t.now = false) :
    w.watch_tick t = ⟨w, none, none⟩ := by
  unfold PersistentPixelWatcher.watch_tick
  simp [hle, hrun, hen, hsc]

theorem watch_tick_match_eq (w : PersistentPixelWatcher) (t : PixelTick)
    (hle : w.loop_exited = false) (hrun : w.running = true)
    (hen : w.config.enabled = true) (hsc : w.should_check t.now = true)
    (hev : w.config.event_type = WatcherEvent.color_match) :
    w.watch_tick t =
      check_color_match w (get_pixel_color t.capture) t.now t.callback_raises := by
  unfold PersistentPixelWatcher.watch_tick
  simp [hle, hrun, hen, hsc, hev]

theorem watch_tick_change_eq (w : PersistentPixelWatcher) (t : PixelTick)
    (hle : w.loop_exited = false) (hrun : w.running = true)
    (hen : w.config.enabled = true) (hsc : w.should_check t.now = true)
    (hev : w.config.event_type = WatcherEvent.color_change) :
    w.watch_tick t =
      check_color_change w (get_pixel_color t.capture) t.now t.callback_raises := by
  unfold PersistentPixelWatcher.watch_tick
  simp [hle, hrun, hen, hsc, hev]

theorem pixel_fired_spec (w : PersistentPixelWatcher) (t : PixelTick)
    (ev : PixelEventData) (h : (w.watch_tick t).fired = some ev) :
    ev.trigger_count = w.trigger_count + 1 ∧
    ev.timestamp = t.now ∧
    (w.watch_tick t).watcher.trigger_count = w.trigger_count + 1 ∧
    (w.watch_tick t).watcher.last_trigger_time = t.now ∧
    (w.watch_tick t).callback_saw = some (w.trigger_count + 1, t.now) ∧
    (w.config.trigger_once = true → t.callback_raises = false →
      (w.watch_tick t).watcher.running = false) ∧
    (t.callback_raises = true → (w.watch_tick t).watcher.running = w.running) := by
  by_cases hle : w.loop_exited = true
  · rw [watch_tick_exited w t hle] at h
    exact absurd h (by simp)
  rw [Bool.not_eq_true] at hle
  by_cases hre : (w.running && w.config.enabled) = true
  swap
  · rw [watch_tick_loop_exit w t hle (by simpa using hre)] at h
    exact absurd h (by simp)
  obtain ⟨hrun, hen⟩ := (Bool.and_eq_true _ _).mp hre
  by_cases hsc : w.should_check t.now = true
  swap
  · rw [watch_tick_skip w t hle hrun hen (by simpa using hsc)] at h
    exact absurd h (by simp)
  cases hev : w.config.event_type with
  | color_match =>
    rw [watch_tick_match_eq w t hle hrun hen hsc hev] at h ⊢
    rcases htc : w.config.target_color with _ | tc
    · rw [check_color_match_eq_of_none w _ t.now t.callback_raises htc] at h
      exact absurd h (by simp)
    · by_cases hm : colors_match (get_pixel_color t.capture) tc w.config.tolerance = true
      swap
      · rw [check_color_match_eq_of_no_match w _ t.now t.callback_raises tc htc
          (by simpa using hm)] at h
        exact absurd h (by simp)
      · rw [check_color_match_eq_of_match w _ t.now t.callback_raises tc htc hm] at h ⊢
        simp only [Option.some.injEq] at h
        subst h
        have hs := trigger_event_spec w t.now t.callback_raises
        refine ⟨rfl, rfl, hs.1, hs.2.1, ?_, ?_, ?_⟩
        · simpa using hs.2.2.2.2.2
        · intro honce hcb
          rw [hcb]
          exact trigger_event_running_once w t.now honce
        · intro hcb
          rw [hcb]
          exact trigger_event_running_of_raises w t.now
  | color_change =>
    rw [watch_tick_change_eq w t hle hrun hen hsc hev] at h ⊢
    rcases hlk : w.last_known_color with _ | last
    · rw [check_color_change_eq_of_none w _ t.now t.callback_raises hlk] at h
      exact absurd h (by simp)
    · by_cases hd : color_diff last (get_pixel_color t.capture) ≥ w.config.min_change
      swap
      · rw [check_color_change_eq_of_small w _ t.now t.callback_raises last hlk hd] at h
        exact absurd h (by simp)
      · rw [check_color_change_eq_of_change w _ t.now t.callback_raises last hlk hd] at h ⊢
        simp only [Option.some.injEq] at h
        subst h
        have hs := trigger_event_spec w t.now t.callback_raises
        refine ⟨rfl, rfl, hs.1, hs.2.1, ?_, ?_, ?_⟩
        · simpa using hs.2.2.2.2.2
        · intro honce hcb
          rw [hcb]
          exact trigger_event_running_once w t.now honce
        · intro hcb
          rw [hcb]
          exact trigger_event_running_of_raises w t.now

theorem pixel_tick_no_poll (w : PersistentPixelWatcher) (t : PixelTick)
    (h : w.running = false) :
    (w.watch_tick t).fired = none ∧
    (w.watch_tick t).watcher.trigger_count = w.trigger_count ∧
    (w.watch_tick t).watcher.running = false := by
  by_cases hle : w.loop_exited = true
  · rw [watch_tick_exited w t hle]
    exact ⟨rfl, rfl, h⟩
  · rw [watch_tick_loop_exit w t (by simpa using hle) (by simp [h])]
    exact ⟨rfl, rfl, rfl⟩

theorem pixel_run_ticks_stopped (w : PersistentPixelWatcher) (ts : List PixelTick)
    (h : w.running = false) :
    (w.run_ticks ts).1.trigger_count = w.trigger_count ∧ (w.run_ticks ts).2 = [] := by
  induction ts generalizing w with
  | nil => exact ⟨rfl, rfl⟩
  | cons t ts ih =>
    obtain ⟨h1, h2, h3⟩ := pixel_tick_no_poll w t h
    obtain ⟨ih1, ih2⟩ := ih (w.watch_tick t).watcher h3
    unfold PersistentPixelWatcher.run_ticks
    constructor
    · rw [ih1, h2]
    · simp [h1, ih2]

theorem pixel_run_ticks_exited (w : PersistentPixelWatcher) (ts : List PixelTick)
    (h : w.loop_exited = true) : w.run_ticks ts = (w, []) := by
  induction ts with
  | nil => rfl
  | cons t ts ih =>
    unfold PersistentPixelWatcher.run_ticks
    rw [watch_tick_exited w t h]
    simp [ih]

theorem t_trigger_event_spec (w : PersistentTemplateWatcher) (ev : TemplateEventData)
    (now : ℚ) (cb : Bool) :
    (w.trigger_event ev now cb).1.trigger_count = w.trigger_count + 1 ∧
    (w.trigger_event ev now cb).1.last_trigger_time = now ∧
    (w.trigger_event ev now cb).2.1 = { ev with template_present := w.template_present } ∧
    (w.trigger_event ev now cb).2.2 = (w.trigger_count + 1, now) := by
  unfold PersistentTemplateWatcher.trigger_event PersistentTemplateWatcher.stop
  dsimp only
  split_ifs <;> simp_all

theorem t_trigger_event_running_of_raises (w : PersistentTemplateWatcher)
    (ev : TemplateEventData) (now : ℚ) :
    (w.trigger_event ev now true).1.running = w.running := by
  unfold PersistentTemplateWatcher.trigger_event
  simp

theorem t_trigger_event_running_once (w : PersistentTemplateWatcher)
    (ev : TemplateEventData) (now : ℚ) (h : w.config.trigger_once = true) :
    (w.trigger_event ev now false).1.running = false := by
  unfold PersistentTemplateWatcher.trigger_event PersistentTemplateWatcher.stop
  dsimp only
  split_ifs <;> simp_all

theorem t_should_check_of_le (w : PersistentTemplateWatcher) (now : ℚ)
    (h : w.config.cooldown ≤ now - w.last_trigger_time) :
    w.should_check now = true := by
  unfold PersistentTemplateWatcher.should_check
  split
  · rfl
  · simpa using h

theorem t_should_check_false_of_lt (w : PersistentTemplateWatcher) (now : ℚ)
    (h0 : 0 < w.config.cooldown) (h : now - w.last_trigger_time < w.config.cooldown) :
    w.should_check now = false := by
  unfold PersistentTemplateWatcher.should_check
  split
  · next hc => exact absurd h0 (not_lt.mpr hc)
  · simpa using h

theorem t_watch_tick_exited (w : PersistentTemplateWatcher) (t : TemplateTick)
    (h : w.loop_exited = true) : w.watch_tick t = ⟨w, none, none⟩ := by
  unfold PersistentTemplateWatcher.watch_tick
  simp [h]

theorem t_watch_tick_loop_exit (w : PersistentTemplateWatcher) (t : TemplateTick)
    (hle : w.loop_exited = false) (h : (w.running && w.config.enabled) = false) :
    w.watch_tick t = ⟨{ w with running := false, loop_exited := true }, none, none⟩ := by
  unfold PersistentTemplateWatcher.watch_tick
  simp [hle, h]

theorem t_watch_tick_skip (w : PersistentTemplateWatcher) (t : TemplateTick)
    (hle : w.loop_exited = false) (hrun : w.running = true)
    (hen : w.config.enabled = true) (hsc : w.should_check t.now = false) :
    w.watch_tick t = ⟨w, none, none⟩ := by
  unfold PersistentTemplateWatcher.watch_tick
  simp [hle, hrun, hen, hsc]

theorem t_watch_tick_check_eq (w : PersistentTemplateWatcher) (t : TemplateTick)
    (hle : w.loop_exited = false) (hrun : w.running = true)
    (hen : w.config.enabled = true) (hsc : w.should_check t.now = true) :
    w.watch_tick t = check_template w t.find_result t.now t.callback_raises := by
  unfold PersistentTemplateWatcher.watch_tick
  simp [hle, hrun, hen, hsc]

theorem t_fire_components (w0 : PersistentTemplateWatcher) (ev : TemplateEventData)
    (now : ℚ) (cb : Bool) :
    (w0.trigger_event ev now cb).2.1.trigger_count = ev.trigger_count ∧
    (w0.trigger_event ev now cb).2.1.timestamp = ev.timestamp ∧
    (w0.trigger_event ev now cb).1.trigger_count = w0.trigger_count + 1 ∧
    (w0.trigger_event ev now cb).1.last_trigger_time = now ∧
    (w0.trigger_event ev now cb).2.2 = (w0.trigger_count + 1, now) ∧
    (w0.config.trigger_once = true → cb = false →
      (w0.trigger_event ev now cb).1.running = false) ∧
    (cb = true → (w0.trigger_event ev now cb).1.running = w0.running) := by
  have hs := t_trigger_event_spec w0 ev now cb
  refine ⟨by rw [hs.2.2.1], by rw [hs.2.2.1], hs.1, hs.2.1, hs.2.2.2, ?_, ?_⟩
  · intro h1 h2
    rw [h2]
    exact t_trigger_event_running_once w0 ev now h1
  · intro h2
    rw [h2]
    exact t_trigger_event_running_of_raises w0 ev now

theorem handle_found_fired_spec (w : PersistentTemplateWatcher)
    (m : Option TemplateMatch) (now : ℚ) (cb : Bool) (ev : TemplateEventData)
    (h : (handle_template_found w m now cb).fired = some ev) :
    ev.trigger_count = w.trigger_count + 1 ∧
    ev.timestamp = now ∧
    (handle_template_found w m now cb).watcher.trigger_count = w.trigger_count + 1 ∧
    (handle_template_found w m now cb).watcher.last_trigger_time = now ∧
    (handle_template_found w m now cb).callback_saw = some (w.trigger_count + 1, now) ∧
    (w.config.trigger_once = true → cb = false →
      (handle_template_found w m now cb).watcher.running = false) ∧
    (cb = true → (handle_template_found w m now cb).watcher.running = w.running) := by
  unfold handle_template_found at h ⊢
  rcases m with _ | mt <;> dsimp only at h ⊢
  · by_cases hp : w.template_present = true <;> simp [hp] at h
  · by_cases hp : w.template_present = true
    · simp [hp] at h
    · rw [if_neg hp] at h ⊢
      dsimp only at h ⊢
      obtain rfl := (Option.some.inj h).symm
      have hc := t_fire_components
        { w with template_present := true, last_match := some mt }
        { event_type := TemplateWatcherEvent.template_found
          tmatch := some mt
          previous_match := none
          movement_distance_sq := none
          template_path := w.config.template_path
          timestamp := now
          trigger_count := w.trigger_count + 1
          template_present := true } now cb
      exact ⟨hc.1, hc.2.1, hc.2.2.1, hc.2.2.2.1, by rw [hc.2.2.2.2.1],
        hc.2.2.2.2.2.1, hc.2.2.2.2.2.2⟩

theorem handle_lost_fired_spec (w : PersistentTemplateWatcher)
    (m : Option TemplateMatch) (now : ℚ) (cb : Bool) (ev : TemplateEventData)
    (h : (handle_template_lost w m now cb).fired = some ev) :
    ev.trigger_count = w.trigger_count + 1 ∧
    ev.timestamp = now ∧
    (handle_template_lost w m now cb).watcher.trigger_count = w.trigger_count + 1 ∧
    (handle_template_lost w m now cb).watcher.last_trigger_time = now ∧
    (handle_template_lost w m now cb).callback_saw = some (w.trigger_count + 1, now) ∧
    (w.config.trigger_once = true → cb = false →
      (handle_template_lost w m now cb).watcher.running = false) ∧
    (cb = true → (handle_template_lost w m now cb).watcher.running = w.running) := by
  unfold handle_template_lost at h ⊢
  rcases m with _ | mt <;> dsimp only at h ⊢
  · by_cases hp : w.template_present = true
    · rw [if_pos hp] at h ⊢
      dsimp only at h ⊢
      obtain rfl := (Option.some.inj h).symm
      have hc := t_fire_components
        { w with template_present := false, last_match := none }
        { event_type := TemplateWatcherEvent.template_lost
          tmatch := none
          previous_match := none
          movement_distance_sq := none
          template_path := w.config.template_path
          timestamp := now
          trigger_count := w.trigger_count + 1
          template_present := false } now cb
      exact ⟨hc.1, hc.2.1, hc.2.2.1, hc.2.2.2.1, by rw [hc.2.2.2.2.1],
        hc.2.2.2.2.2.1, hc.2.2.2.2.2.2⟩
    · simp [hp] at h
  · by_cases hp : w.template_present = true <;> simp [hp] at h

theorem handle_moved_fired_spec (w : PersistentTemplateWatcher)
    (m : Option TemplateMatch) (now : ℚ) (cb : Bool) (ev : TemplateEventData)
    (h : (handle_template_moved w m now cb).fired = some ev) :
    ev.trigger_count = w.trigger_count + 1 ∧
    ev.timestamp = now ∧
    (handle_template_moved w m now cb).watcher.trigger_count = w.trigger_count + 1 ∧
    (handle_template_moved w m now cb).watcher.last_trigger_time = now ∧
    (handle_template_moved w m now cb).callback_saw = some (w.trigger_count + 1, now) ∧
    (w.config.trigger_once = true → cb = false →
      (handle_template_moved w m now cb).watcher.running = false) ∧
    (cb = true → (handle_template_moved w m now cb).watcher.running = w.running) := by
  unfold handle_template_moved at h ⊢
  rcases m with _ | mt <;> dsimp only at h ⊢
  · simp at h
  · rcases hlm : w.last_match with _ | old
    · rw [hlm] at h
      simp at h
    · rw [hlm] at h
      dsimp only at h ⊢
      by_cases hd : dist_ge
          ((old.center.1 - mt.center.1) * (old.center.1 - mt.center.1) +
            (old.center.2 - mt.center.2) * (old.center.2 - mt.center.2))
          w.config.movement_threshold = true
      · rw [if_pos hd] at h ⊢
        dsimp only at h ⊢
        obtain rfl := (Option.some.inj h).symm
        have hc := t_fire_components w
          { event_type := TemplateWatcherEvent.template_moved
            tmatch := some mt
            previous_match := some old
            movement_distance_sq := some
              ((old.center.1 - mt.center.1) * (old.center.1 - mt.center.1) +
                (old.center.2 - mt.center.2) * (old.center.2 - mt.center.2))
            template_path := w.config.template_path
            timestamp := now
            trigger_count := w.trigger_count + 1
            template_present := w.template_present } now cb
        exact ⟨hc.1, hc.2.1, hc.2.2.1, hc.2.2.2.1, by rw [hc.2.2.2.2.1],
          hc.2.2.2.2.2.1, hc.2.2.2.2.2.2⟩
      · simp [hd] at h

theorem template_fired_spec (w : PersistentTemplateWatcher) (t : TemplateTick)
    (ev : TemplateEventData) (h : (w.watch_tick t).fired = some ev) :
    ev.trigger_count = w.trigger_count + 1 ∧
    ev.timestamp = t.now ∧
    (w.watch_tick t).watcher.trigger_count = w.trigger_count + 1 ∧
    (w.watch_tick t).watcher.last_trigger_time = t.now ∧
    (w.watch_tick t).callback_saw = some (w.trigger_count + 1, t.now) ∧
    (w.config.trigger_once = true → t.callback_raises = false →
      (w.watch_tick t).watcher.running = false) ∧
    (t.callback_raises = true → (w.watch_tick t).watcher.running = w.running) := by
  by_cases hle : w.loop_exited = true
  · rw [t_watch_tick_exited w t hle] at h
    exact absurd h (by simp)
  rw [Bool.not_eq_true] at hle
  by_cases hre : (w.running && w.config.enabled) = true
  swap
  · rw [t_watch_tick_loop_exit w t hle (by simpa using hre)] at h
    exact absurd h (by simp)
  obtain ⟨hrun, hen⟩ := (Bool.and_eq_true _ _).mp hre
  by_cases hsc : w.should_check t.now = true
  swap
  · rw [t_watch_tick_skip w t hle hrun hen (by simpa using hsc)] at h
    exact absurd h (by simp)
  rw [t_watch_tick_check_eq w t hle hrun hen hsc] at h ⊢
  unfold check_template at h ⊢
  cases hev : w.config.event_type with
  | template_found =>
    rw [hev] at h
    exact handle_found_fired_spec w t.find_result t.now t.callback_raises ev h
  | template_lost =>
    rw [hev] at h
    exact handle_lost_fired_spec w t.find_result t.now t.callback_raises ev h
  | template_moved =>
    rw [hev] at h
    exact handle_moved_fired_spec w t.find_result t.now t.callback_raises ev h

theorem template_tick_no_poll (w : PersistentTemplateWatcher) (t : TemplateTick)
    (h : w.running = false) :
    (w.watch_tick t).fired = none ∧
    (w.watch_tick t).watcher.trigger_count = w.trigger_count ∧
    (w.watch_tick t).watcher.running = false := by
  by_cases hle : w.loop_exited = true
  · rw [t_watch_tick_exited w t hle]
    exact ⟨rfl, rfl, h⟩
  · rw [t_watch_tick_loop_exit w t (by simpa using hle) (by simp [h])]
    exact ⟨rfl, rfl, rfl⟩

theorem template_run_ticks_stopped (w : PersistentTemplateWatcher)
    (ts : List TemplateTick) (h : w.running = false) :
    (w.run_ticks ts).1.trigger_count = w.trigger_count ∧ (w.run_ticks ts).2 = [] := by
  induction ts generalizing w with
  | nil => exact ⟨rfl, rfl⟩
  | cons t ts ih =>
    obtain ⟨h1, h2, h3⟩ := template_tick_no_poll w t h
    obtain ⟨ih1, ih2⟩ := ih (w.watch_tick t).watcher h3
    unfold PersistentTemplateWatcher.run_ticks
    constructor
    · rw [ih1, h2]
    · simp [h1, ih2]

theorem template_run_ticks_exited (w : PersistentTemplateWatcher)
    (ts : List TemplateTick) (h : w.loop_exited = true) : w.run_ticks ts = (w, []) := by
  induction ts with
  | nil => rfl
  | cons t ts ih =>
    unfold PersistentTemplateWatcher.run_ticks
    rw [t_watch_tick_exited w t h]
    simp [ih]

theorem trigger_event_eq_normal (w : PersistentPixelWatcher) (now : ℚ)
    (honce : w.config.trigger_once = false) :
    w.trigger_event now false =
      ({ w with trigger_count := w.trigger_count + 1, last_trigger_time := now },
        (w.trigger_count + 1, now)) := by
  unfold PersistentPixelWatcher.trigger_event
  simp [honce]

theorem dict_get_dict_set_self {α : Type} (l : List (String × α)) (k : String) (v : α) :
    dict_get (dict_set l k v) k = some v := by
  induction l with
  | nil => simp [dict_set, dict_get]
  | cons p rest ih =>
    by_cases hp : p.1 = k
    · simp [dict_set, dict_get, hp]
    · simp [dict_set, dict_get, hp, ih]

theorem dict_set_keys_of_mem {α : Type} (l : List (String × α)) (k : String) (v : α)
    (h : (dict_get l k).isSome = true) :
    (dict_set l k v).map Prod.fst = l.map Prod.fst := by
  induction l with
  | nil => simp [dict_get] at h
  | cons p rest ih =>
    by_cases hp : p.1 = k
    · simp [dict_set, hp]
    · simp only [dict_get, hp, if_neg, ite_false] at h
      simp [dict_set, hp, ih h]

theorem pixel_tick_keeps_thread (w : PersistentPixelWatcher) (t : PixelTick)
    (hle : w.loop_exited = false) (hrun : w.running = true)
    (hen : w.config.enabled = true) :
    (w.watch_tick t).watcher.loop_exited = false := by
  by_cases hsc : w.should_check t.now = true
  swap
  · rw [watch_tick_skip w t hle hrun hen (by simpa using hsc)]
    exact hle
  cases hev : w.config.event_type with
  | color_match =>
    rw [watch_tick_match_eq w t hle hrun hen hsc hev]
    rcases htc : w.config.target_color with _ | tc
    · rw [check_color_match_eq_of_none w _ t.now t.callback_raises htc]
      exact hle
    · by_cases hm : colors_match (get_pixel_color t.capture) tc w.config.tolerance = true
      · rw [check_color_match_eq_of_match w _ t.now t.callback_raises tc htc hm]
        exact (trigger_event_spec w t.now t.callback_raises).2.2.2.2.1.trans hle
      · rw [check_color_match_eq_of_no_match w _ t.now t.callback_raises tc htc
          (by simpa using hm)]
        exact hle
  | color_change =>
    rw [watch_tick_change_eq w t hle hrun hen hsc hev]
    rcases hlk : w.last_known_color with _ | last
    · rw [check_color_change_eq_of_none w _ t.now t.callback_raises hlk]
      exact hle
    · by_cases hd : color_diff last (get_pixel_color t.capture) ≥ w.config.min_change
      · rw [check_color_change_eq_of_change w _ t.now t.callback_raises last hlk hd]
        exact (trigger_event_spec w t.now t.callback_raises).2.2.2.2.1.trans hle
      · rw [check_color_change_eq_of_small w _ t.now t.callback_raises last hlk hd]
        exact hle

theorem wrapped_callback_run_mem {ε : Type} (user : ℕ) (globals : List ℕ)
    (raises : ℕ → Bool) (ev : ε) (hr : raises user = false) (g : ℕ)
    (hg : g ∈ globals) :
    (g, ev) ∈ (wrapped_callback_run user globals raises ev).1 := by
  rw [wrapped_callback_run, if_neg (by simp [hr])]
  exact List.mem_cons_of_mem _ (List.mem_map_of_mem _ hg)

/-! ### Claim C8 -/

/-- C8: for every tolerance t ≥ 0 and RGB colors c1, c2, `_colors_match`
returns true iff every channel satisfies |c1_i - c2_i| ≤ t, and it is
symmetric in its two color arguments. -/
theorem c8_colors_match_spec (c1 c2 : Color) (t : ℤ) (ht : 0 ≤ t) :
    (colors_match c1 c2 t = true ↔
      |c1.r - c2.r| ≤ t ∧ |c1.g - c2.g| ≤ t ∧ |c1.b - c2.b| ≤ t) ∧
    colors_match c1 c2 t = colors_match c2 c1 t := by
  constructor
  · simp [colors_match, channels]
  · simp only [colors_match, channels, List.zip, List.zipWith, List.all]
    rw [abs_sub_comm c1.r, abs_sub_comm c1.g, abs_sub_comm c1.b]

/-- C8 witness: the characterization and symmetry instantiated at tolerance 5
and two concrete colors. -/
theorem c8_witness :
    0 ≤ (5 : ℤ) ∧
    ((colors_match ⟨10, 20, 30⟩ ⟨12, 18, 34⟩ 5 = true ↔
      |(10 : ℤ) - 12| ≤ 5 ∧ |(20 : ℤ) - 18| ≤ 5 ∧ |(30 : ℤ) - 34| ≤ 5) ∧
     colors_match ⟨10, 20, 30⟩ ⟨12, 18, 34⟩ 5 = colors_match ⟨12, 18, 34⟩ ⟨10, 20, 30⟩ 5) :=
  ⟨by decide, c8_colors_match_spec ⟨10, 20, 30⟩ ⟨12, 18, 34⟩ 5 (by decide)⟩

/-! ### Claim C1 -/

/-- C1 counterexample: for a started, matching pixel watcher, setting
`enabled := false` makes the very next loop iteration terminate the loop
(`running` becomes false, the thread finishes), and after re-enabling, a tick
with a matching sample neither polls nor triggers — contradicting the claim
that the loop keeps running with `running` true throughout and resumes
triggering. -/
theorem c1_counterexample :
    c1_result.watcher.running = false ∧
    c1_result.watcher.loop_exited = true ∧
    c1_result.fired = none ∧
    c1_resumed.fired = none ∧
    c1_resumed.watcher.running = false := by
  decide

/-- C1 amended: for every running watcher (pixel or template), setting
`enabled` to false terminates the background polling loop at its next
iteration: the `while self.running and self.config.enabled` condition fails,
no sampling occurs, the loop's `finally` clause sets `running` to false and the
thread finishes; from then on the watcher is inert — re-enabling alone never
resumes polling or triggering (a fresh `start()` would be required). -/
theorem c1_amended :
    (∀ (w : PersistentPixelWatcher) (t : PixelTick), w.loop_exited = false →
      ((w.set_enabled false).watch_tick t).watcher.running = false ∧
      ((w.set_enabled false).watch_tick t).watcher.loop_exited = true ∧
      ((w.set_enabled false).watch_tick t).fired = none) ∧
    (∀ (w : PersistentPixelWatcher) (ts : List PixelTick), w.loop_exited = true →
      (w.set_enabled true).run_ticks ts = (w.set_enabled true, [])) ∧
    (∀ (w : PersistentTemplateWatcher) (t : TemplateTick), w.loop_exited = false →
      ((w.set_enabled false).watch_tick t).watcher.running = false ∧
      ((w.set_enabled false).watch_tick t).watcher.loop_exited = true ∧
      ((w.set_enabled false).watch_tick t).fired = none) ∧
    (∀ (w : PersistentTemplateWatcher) (ts : List TemplateTick), w.loop_exited = true →
      (w.set_enabled true).run_ticks ts = (w.set_enabled true, [])) := by
  refine ⟨?_, ?_, ?_, ?_⟩
  · intro w t hle
    rw [watch_tick_loop_exit (w.set_enabled false) t hle (by simp [PersistentPixelWatcher.set_enabled])]
    exact ⟨rfl, rfl, rfl⟩
  · intro w ts hle
    exact pixel_run_ticks_exited (w.set_enabled true) ts hle
  · intro w t hle
    rw [t_watch_tick_loop_exit (w.set_enabled false) t hle (by simp [PersistentTemplateWatcher.set_enabled])]
    exact ⟨rfl, rfl, rfl⟩
  · intro w ts hle
    exact template_run_ticks_exited (w.set_enabled true) ts hle

/-- C1 witness: the amended claim instantiated at concrete watchers and
ticks. -/
theorem c1_witness :
    (c1_watcher.loop_exited = false ∧
     ((c1_watcher.set_enabled false).watch_tick ⟨1, some ⟨100, 100, 100⟩, false⟩).watcher.running = false) ∧
    (c1_result.watcher.loop_exited = true ∧
     (c1_result.watcher.set_enabled true).run_ticks [⟨2, some ⟨100, 100, 100⟩, false⟩] =
       (c1_result.watcher.set_enabled true, [])) ∧
    (c1_t_watcher.loop_exited = false ∧
     ((c1_t_watcher.set_enabled false).watch_tick ⟨1, some ⟨(5, 5)⟩, false⟩).watcher.running = false) := by
  refine ⟨⟨by decide, (c1_amended.1 c1_watcher ⟨1, some ⟨100, 100, 100⟩, false⟩ (by decide)).1⟩,
    ⟨by decide, c1_amended.2.1 c1_result.watcher [⟨2, some ⟨100, 100, 100⟩, false⟩] (by decide)⟩,
    ⟨by decide, (c1_amended.2.2.1 c1_t_watcher ⟨1, some ⟨(5, 5)⟩, false⟩ (by decide)).1⟩⟩

/-! ### Claim C2 -/

/-- C2 counterexample: adding a second watcher under the already-present name
"dup" raises no error (the call returns the name as usual) and silently
replaces the stored watcher: the binding for "dup" changes, contradicting the
claim that the add is rejected and the stored watcher left unchanged. -/
theorem c2_counterexample :
    dict_get c2_m2.watchers "dup" ≠ dict_get c2_m1.watchers "dup" ∧
    (dict_get c2_m2.watchers "dup").isSome = true ∧
    c2_m2.watchers.map Prod.fst = ["dup"] ∧
    (c2_m1.add_color_watcher "dup" 5 6 ⟨9, 9, 9⟩ 1 10 (1/10) 0 false none).2 = "dup" := by
  decide

/-- C2 amended: for every manager and name already present in its watcher
mapping, `add_color_watcher` / `add_change_watcher` / `add_template_watcher`
raises no error: it returns the name normally and silently replaces the stored
watcher in place with the newly constructed (stopped) one — the old watcher is
discarded without being stopped and the key set is unchanged. -/
theorem c2_amended :
    (∀ (m : PixelWatcherManager) (name : String) (x y : ℤ) (target_color : Color)
       (callback : ℕ) (tolerance : ℤ) (check_interval cooldown : ℚ)
       (trigger_once : Bool) (initial_capture : Option Color),
      (dict_get m.watchers name).isSome = true →
      (m.add_color_watcher name x y target_color callback tolerance check_interval
          cooldown trigger_once initial_capture).2 = name ∧
      dict_get (m.add_color_watcher name x y target_color callback tolerance
          check_interval cooldown trigger_once initial_capture).1.watchers name =
        some (PersistentPixelWatcher.init
          (color_watcher_config name x y target_color callback tolerance
            check_interval cooldown trigger_once) initial_capture) ∧
      (m.add_color_watcher name x y target_color callback tolerance check_interval
          cooldown trigger_once initial_capture).1.watchers.map Prod.fst =
        m.watchers.map Prod.fst) ∧
    (∀ (m : PixelWatcherManager) (name : String) (x y : ℤ) (callback : ℕ)
       (min_change : ℤ) (check_interval cooldown : ℚ) (trigger_once : Bool)
       (initial_capture : Option Color),
      (dict_get m.watchers name).isSome = true →
      (m.add_change_watcher name x y callback min_change check_interval cooldown
          trigger_once initial_capture).2 = name ∧
      dict_get (m.add_change_watcher name x y callback min_change check_interval
          cooldown trigger_once initial_capture).1.watchers name =
        some (PersistentPixelWatcher.init
          (change_watcher_config name x y callback min_change check_interval
            cooldown trigger_once) initial_capture) ∧
      (m.add_change_watcher name x y callback min_change check_interval cooldown
          trigger_once initial_capture).1.watchers.map Prod.fst =
        m.watchers.map Prod.fst) ∧
    (∀ (m : TemplateWatcherManager) (name template_path : String)
       (event_type : TemplateWatcherEvent) (callback : ℕ) (threshold : ℚ)
       (use_transparency : Bool) (check_interval cooldown : ℚ)
       (trigger_once : Bool) (movement_threshold : ℤ),
      (dict_get m.watchers name).isSome = true →
      (m.add_template_watcher name template_path event_type callback threshold
          use_transparency check_interval cooldown trigger_once
          movement_threshold).2 = name ∧
      dict_get (m.add_template_watcher name template_path event_type callback
          threshold use_transparency check_interval cooldown trigger_once
          movement_threshold).1.watchers name =
        some (PersistentTemplateWatcher.init
          (template_watcher_config name template_path event_type callback
            threshold use_transparency check_interval cooldown trigger_once
            movement_threshold)) ∧
      (m.add_template_watcher name template_path event_type callback threshold
          use_transparency check_interval cooldown trigger_once
          movement_threshold).1.watchers.map Prod.fst = m.watchers.map Prod.fst) := by
  refine ⟨?_, ?_, ?_⟩
  · intro m name x y target_color callback tolerance check_interval cooldown
      trigger_once initial_capture h
    exact ⟨rfl, dict_get_dict_set_self m.watchers name _,
      dict_set_keys_of_mem m.watchers name _ h⟩
  · intro m name x y callback min_change check_interval cooldown trigger_once
      initial_capture h
    exact ⟨rfl, dict_get_dict_set_self m.watchers name _,
      dict_set_keys_of_mem m.watchers name _ h⟩
  · intro m name template_path event_type callback threshold use_transparency
      check_interval cooldown trigger_once movement_threshold h
    exact ⟨rfl, dict_get_dict_set_self m.watchers name _,
      dict_set_keys_of_mem m.watchers name _ h⟩

/-- C2 witness: the amended claim instantiated at the concrete manager already
holding "dup". -/
theorem c2_witness :
    (dict_get c2_m1.watchers "dup").isSome = true ∧
    dict_get (c2_m1.add_color_watcher "dup" 5 6 ⟨9, 9, 9⟩ 1 10 (1/10) 0 false
        none).1.watchers "dup" =
      some (PersistentPixelWatcher.init
        (color_watcher_config "dup" 5 6 ⟨9, 9, 9⟩ 1 10 (1/10) 0 false) none) ∧
    (c2_m1.add_color_watcher "dup" 5 6 ⟨9, 9, 9⟩ 1 10 (1/10) 0 false
        none).1.watchers.map Prod.fst = c2_m1.watchers.map Prod.fst :=
  ⟨by decide,
    (c2_amended.1 c2_m1 "dup" 5 6 ⟨9, 9, 9⟩ 1 10 (1/10) 0 false none (by decide)).2.1,
    (c2_amended.1 c2_m1 "dup" 5 6 ⟨9, 9, 9⟩ 1 10 (1/10) 0 false none (by decide)).2.2⟩

/-! ### Claim C3 -/

/-- C3 counterexample: a color-change watcher with cooldown 1 s, last trigger
at t = 10 and baseline RGB(0,0,0) polls at t = 10.5 while the pixel reads
RGB(100,100,100): the whole check is skipped, so contrary to the claim the
baseline is NOT updated from this tick's sample — no sample is taken at all
and the watcher state is completely unchanged. -/
theorem c3_counterexample :
    c3_result.watcher = c3_watcher ∧
    c3_result.watcher.last_known_color = some ⟨0, 0, 0⟩ ∧
    c3_result.watcher.last_known_color ≠ some ⟨100, 100, 100⟩ ∧
    c3_result.fired = none := by
  have hsc : c3_watcher.should_check ((21 : ℚ)/2) = false :=
    should_check_false_of_lt c3_watcher (21/2) (by norm_num [c3_watcher])
      (by norm_num [c3_watcher])
  have heq : c3_result = ⟨c3_watcher, none, none⟩ :=
    watch_tick_skip c3_watcher ⟨21/2, some ⟨100, 100, 100⟩, false⟩ rfl rfl rfl hsc
  rw [heq]
  exact ⟨rfl, rfl, by decide, rfl⟩

/-- C3 amended: for every watcher (pixel or template) with cooldown C > 0, a
poll tick with now - last_trigger_time < C skips the entire check: no sampling
occurs, no trigger fires, and no state (baseline, presence, last_match) is
updated — the tick leaves the watcher exactly as it was. -/
theorem c3_amended :
    (∀ (w : PersistentPixelWatcher) (t : PixelTick),
      w.loop_exited = false → w.running = true → w.config.enabled = true →
      0 < w.config.cooldown → t.now - w.last_trigger_time < w.config.cooldown →
      w.watch_tick t = ⟨w, none, none⟩) ∧
    (∀ (w : PersistentTemplateWatcher) (t : TemplateTick),
      w.loop_exited = false → w.running = true → w.config.enabled = true →
      0 < w.config.cooldown → t.now - w.last_trigger_time < w.config.cooldown →
      w.watch_tick t = ⟨w, none, none⟩) := by
  constructor
  · intro w t hle hrun hen h0 hlt
    exact watch_tick_skip w t hle hrun hen (should_check_false_of_lt w t.now h0 hlt)
  · intro w t hle hrun hen h0 hlt
    exact t_watch_tick_skip w t hle hrun hen (t_should_check_false_of_lt w t.now h0 hlt)

/-- C3 witness: the amended claim at the concrete mid-cooldown pixel and
template watchers. -/
theorem c3_witness :
    (0 < c3_watcher.config.cooldown ∧
      (21 : ℚ)/2 - c3_watcher.last_trigger_time < c3_watcher.config.cooldown ∧
      c3_watcher.watch_tick ⟨21/2, some ⟨100, 100, 100⟩, false⟩ = ⟨c3_watcher, none, none⟩) ∧
    (0 < c3_t_watcher.config.cooldown ∧
      (21 : ℚ)/2 - c3_t_watcher.last_trigger_time < c3_t_watcher.config.cooldown ∧
      c3_t_watcher.watch_tick ⟨21/2, some ⟨(5, 5)⟩, false⟩ = ⟨c3_t_watcher, none, none⟩) :=
  ⟨⟨by norm_num [c3_watcher], by norm_num [c3_watcher],
      c3_amended.1 c3_watcher ⟨21/2, some ⟨100, 100, 100⟩, false⟩ rfl rfl rfl
        (by norm_num [c3_watcher]) (by norm_num [c3_watcher])⟩,
    ⟨by norm_num [c3_t_watcher], by norm_num [c3_t_watcher],
      c3_amended.2 c3_t_watcher ⟨21/2, some ⟨(5, 5)⟩, false⟩ rfl rfl rfl
        (by norm_num [c3_t_watcher]) (by norm_num [c3_t_watcher])⟩⟩

/-! ### Claim C5 -/

/-- C5 counterexample: on a tick whose pixel capture fails (`capture = none`),
`get_pixel_color` substitutes the sentinel (0,0,0), which is then processed as
a genuine sample: with baseline RGB(255,255,255) and min_change 10 the watcher
fires a ColorChange trigger on that very tick (current color = the sentinel,
difference 765), contradicting the claim that a failing tick can never itself
produce a ColorMatch or ColorChange trigger. -/
theorem c5_counterexample :
    c5_result.fired = some
      { event_type := WatcherEvent.color_change, position := (7, 8)
        current_color := sentinelColor, previous_color := some ⟨255, 255, 255⟩
        target_color := none, color_difference := some 765
        trigger_count := 1, timestamp := 1 } ∧
    c5_result.watcher.running = true ∧
    c5_result.watcher.loop_exited = false := by
  decide

/-- C5 amended: a failing pixel capture never raises into the loop — it is
replaced by the sentinel color (0,0,0) and the tick proceeds exactly as if the
pixel had genuinely read (0,0,0) (so the loop continues, but the sentinel is a
real sample for matching/change purposes and can itself trigger, e.g. against a
near-black target or a bright baseline). -/
theorem c5_amended :
    (∀ (w : PersistentPixelWatcher) (now : ℚ) (cb : Bool),
      w.watch_tick ⟨now, none, cb⟩ = w.watch_tick ⟨now, some sentinelColor, cb⟩) ∧
    (∀ (w : PersistentPixelWatcher) (now : ℚ) (cb : Bool),
      w.loop_exited = false → w.running = true → w.config.enabled = true →
      (w.watch_tick ⟨now, none, cb⟩).watcher.loop_exited = false) := by
  constructor
  · intro w now cb
    rfl
  · intro w now cb hle hrun hen
    exact pixel_tick_keeps_thread w ⟨now, none, cb⟩ hle hrun hen

/-- C5 witness: the amended claim at the concrete failing tick. -/
theorem c5_witness :
    c5_watcher.watch_tick ⟨1, none, false⟩ =
      c5_watcher.watch_tick ⟨1, some sentinelColor, false⟩ ∧
    (c5_watcher.loop_exited = false ∧ c5_watcher.running = true ∧
      (c5_watcher.watch_tick ⟨1, none, false⟩).watcher.loop_exited = false) :=
  ⟨c5_amended.1 c5_watcher 1 false,
    ⟨by decide, by decide,
      c5_amended.2 c5_watcher 1 false (by decide) (by decide) (by decide)⟩⟩

/-! ### Claim C4 -/

/-- C4 counterexample: with global callback 1 registered and a user callback
(id 0) that raises, the wrapped callback invokes only the user callback — the
exception propagates before the global-callback loop is entered, so the
registered global callback never receives the event, contradicting the claim
that a raising callback never prevents the remaining global callbacks from
running. -/
theorem c4_counterexample :
    (c4_manager.fire 0 (fun n => n == 0) c4_event).1 = [(0, c4_event)] ∧
    (c4_manager.fire 0 (fun n => n == 0) c4_event).2 = true ∧
    c4_manager.global_callbacks = [1] := by
  decide

/-- C4 amended: the user callback is always invoked first; when it returns
normally, every registered global callback is invoked in order with the same
event record — a raising global callback is caught inside the loop and stops
nothing; but when the user callback raises, the fan-out aborts and no global
callback runs for that event.  In every case the exception is caught by
`_trigger_event`, so a raising callback never stops the watcher itself. -/
theorem c4_amended :
    (∀ (ε : Type) (user : ℕ) (globals : List ℕ) (raises : ℕ → Bool) (ev : ε),
      (wrapped_callback_run user globals raises ev).1.head? = some (user, ev) ∧
      (raises user = false →
        (wrapped_callback_run user globals raises ev).1 =
          (user, ev) :: globals.map (fun g => (g, ev)) ∧
        (wrapped_callback_run user globals raises ev).2 = false) ∧
      (raises user = true →
        (wrapped_callback_run user globals raises ev).1 = [(user, ev)] ∧
        (wrapped_callback_run user globals raises ev).2 = true)) ∧
    (∀ (w : PersistentPixelWatcher) (now : ℚ),
      (w.trigger_event now true).1.running = w.running) ∧
    (∀ (w : PersistentTemplateWatcher) (ev : TemplateEventData) (now : ℚ),
      (w.trigger_event ev now true).1.running = w.running) := by
  refine ⟨?_, trigger_event_running_of_raises, t_trigger_event_running_of_raises⟩
  intro ε user globals raises ev
  rcases hr : raises user <;> simp [wrapped_callback_run, hr]

/-- C4 witness: the amended fan-out behavior at concrete callbacks (one run
with a raising global callback, one with a raising user callback), and a
raising callback leaving a concrete watcher's `running` flag untouched. -/
theorem c4_witness :
    ((fun n : ℕ => n == 2) 0 = false ∧
      (@wrapped_callback_run PixelEventData 0 [1, 2] (fun n => n == 2) c4_event).1 =
        (0, c4_event) :: [1, 2].map (fun g => (g, c4_event))) ∧
    ((fun n : ℕ => n == 0) 0 = true ∧
      (@wrapped_callback_run PixelEventData 0 [1, 2] (fun n => n == 0) c4_event).1 =
        [(0, c4_event)]) ∧
    ((c4_manager.fire 0 (fun n => n == 2) c4_event).1.head? = some (0, c4_event)) ∧
    (((PersistentPixelWatcher.init
        (color_watcher_config "c4w" 0 0 ⟨1, 1, 1⟩ 0 5 1 0 false) none).trigger_event
          3 true).1.running =
      (PersistentPixelWatcher.init
        (color_watcher_config "c4w" 0 0 ⟨1, 1, 1⟩ 0 5 1 0 false) none).running) :=
  ⟨⟨by decide,
      ((c4_amended.1 PixelEventData 0 [1, 2] (fun n => n == 2) c4_event).2.1 (by decide)).1⟩,
    ⟨by decide,
      ((c4_amended.1 PixelEventData 0 [1, 2] (fun n => n == 0) c4_event).2.2 (by decide)).1⟩,
    (c4_amended.1 PixelEventData 0 c4_manager.global_callbacks (fun n => n == 2) c4_event).1,
    c4_amended.2.1 (PersistentPixelWatcher.init
      (color_watcher_config "c4w" 0 0 ⟨1, 1, 1⟩ 0 5 1 0 false) none) 3⟩

/-! ### Claim C6 -/

/-- C6 counterexample: a trigger-once watcher whose triggering callback raises
does NOT self-stop: `_trigger_event` increments the count and invokes the
callback, whose exception is caught by the surrounding `except` before the
`if self.config.trigger_once: self.stop()` line is reached.  After the first
trigger `running` is still true, a further poll occurs, and a second
qualifying tick triggers again, leaving trigger_count = 2 — contradicting the
claim that after exactly one trigger `running` becomes false, no further polls
occur and trigger_count stays at 1 forever. -/
theorem c6_counterexample :
    c6_watcher.config.trigger_once = true ∧
    ((c6_watcher.watch_tick ⟨1, some ⟨50, 60, 70⟩, true⟩).fired).isSome = true ∧
    (c6_watcher.watch_tick ⟨1, some ⟨50, 60, 70⟩, true⟩).watcher.running = true ∧
    (c6_watcher.watch_tick ⟨1, some ⟨50, 60, 70⟩, true⟩).watcher.trigger_count = 1 ∧
    (((c6_watcher.watch_tick ⟨1, some ⟨50, 60, 70⟩, true⟩).watcher.watch_tick
        ⟨2, some ⟨50, 60, 70⟩, true⟩).fired).isSome = true ∧
    ((c6_watcher.watch_tick ⟨1, some ⟨50, 60, 70⟩, true⟩).watcher.watch_tick
        ⟨2, some ⟨50, 60, 70⟩, true⟩).watcher.trigger_count = 2 := by
  decide

/-- C6 amended: the trigger_once self-stop runs only when the triggering
callback returns normally.  For every watcher (pixel or template) configured
with trigger_once and
a trigger count of 0, a tick on which a trigger fires (with the callback
returning normally) leaves `running = false`, and over any further sequence of
ticks — whatever qualifying conditions they carry — the loop performs no
further polls: no event is ever fired again and trigger_count stays at 1. -/
theorem c6_trigger_once_spec :
    (∀ (w : PersistentPixelWatcher) (t : PixelTick) (ts : List PixelTick),
      w.config.trigger_once = true → t.callback_raises = false →
      w.trigger_count = 0 → ((w.watch_tick t).fired).isSome = true →
      (w.watch_tick t).watcher.running = false ∧
      ((w.watch_tick t).watcher.run_ticks ts).1.trigger_count = 1 ∧
      ((w.watch_tick t).watcher.run_ticks ts).2 = []) ∧
    (∀ (w : PersistentTemplateWatcher) (t : TemplateTick) (ts : List TemplateTick),
      w.config.trigger_once = true → t.callback_raises = false →
      w.trigger_count = 0 → ((w.watch_tick t).fired).isSome = true →
      (w.watch_tick t).watcher.running = false ∧
      ((w.watch_tick t).watcher.run_ticks ts).1.trigger_count = 1 ∧
      ((w.watch_tick t).watcher.run_ticks ts).2 = []) := by
  constructor
  · intro w t ts honce hcb h0 hf
    obtain ⟨ev, hev⟩ := Option.isSome_iff_exists.mp hf
    have hs := pixel_fired_spec w t ev hev
    have hrun : (w.watch_tick t).watcher.running = false := hs.2.2.2.2.2.1 honce hcb
    obtain ⟨h1, h2⟩ := pixel_run_ticks_stopped (w.watch_tick t).watcher ts hrun
    refine ⟨hrun, ?_, h2⟩
    rw [h1, hs.2.2.1, h0]
  · intro w t ts honce hcb h0 hf
    obtain ⟨ev, hev⟩ := Option.isSome_iff_exists.mp hf
    have hs := template_fired_spec w t ev hev
    have hrun : (w.watch_tick t).watcher.running = false := hs.2.2.2.2.2.1 honce hcb
    obtain ⟨h1, h2⟩ := template_run_ticks_stopped (w.watch_tick t).watcher ts hrun
    refine ⟨hrun, ?_, h2⟩
    rw [h1, hs.2.2.1, h0]

/-- C6 witness: a trigger-once pixel watcher whose first tick matches, then a
further qualifying tick, and likewise for a trigger-once template watcher. -/
theorem c6_witness :
    (c6_watcher.config.trigger_once = true ∧ c6_watcher.trigger_count = 0 ∧
      ((c6_watcher.watch_tick ⟨1, some ⟨50, 60, 70⟩, false⟩).fired).isSome = true ∧
      (c6_watcher.watch_tick ⟨1, some ⟨50, 60, 70⟩, false⟩).watcher.running = false ∧
      ((c6_watcher.watch_tick ⟨1, some ⟨50, 60, 70⟩, false⟩).watcher.run_ticks
          [⟨2, some ⟨50, 60, 70⟩, false⟩]).1.trigger_count = 1 ∧
      ((c6_watcher.watch_tick ⟨1, some ⟨50, 60, 70⟩, false⟩).watcher.run_ticks
          [⟨2, some ⟨50, 60, 70⟩, false⟩]).2 = []) ∧
    (c6_t_watcher.config.trigger_once = true ∧ c6_t_watcher.trigger_count = 0 ∧
      ((c6_t_watcher.watch_tick ⟨1, some ⟨(3, 3)⟩, false⟩).fired).isSome = true ∧
      (c6_t_watcher.watch_tick ⟨1, some ⟨(3, 3)⟩, false⟩).watcher.running = false ∧
      ((c6_t_watcher.watch_tick ⟨1, some ⟨(3, 3)⟩, false⟩).watcher.run_ticks
          [⟨2, some ⟨(3, 3)⟩, false⟩]).1.trigger_count = 1 ∧
      ((c6_t_watcher.watch_tick ⟨1, some ⟨(3, 3)⟩, false⟩).watcher.run_ticks
          [⟨2, some ⟨(3, 3)⟩, false⟩]).2 = []) := by
  have h1 := c6_trigger_once_spec.1 c6_watcher ⟨1, some ⟨50, 60, 70⟩, false⟩
    [⟨2, some ⟨50, 60, 70⟩, false⟩] (by decide) (by decide) (by decide) (by decide)
  have h2 := c6_trigger_once_spec.2 c6_t_watcher ⟨1, some ⟨(3, 3)⟩, false⟩
    [⟨2, some ⟨(3, 3)⟩, false⟩] (by decide) (by decide) (by decide) (by decide)
  exact ⟨⟨by decide, by decide, by decide, h1.1, h1.2.1, h1.2.2⟩,
    ⟨by decide, by decide, by decide, h2.1, h2.2.1, h2.2.2⟩⟩

/-! ### Claim C9 -/

/-- C9 counterexample: global callback 9 is registered with the manager, yet on
a trigger whose user callback (id 0) raises, the wrapped callback invokes only
the user callback — the exception aborts the fan-out before the global loop,
so callback 9 is not invoked for that trigger, contradicting the claim that a
registered global callback is invoked for every subsequent trigger. -/
theorem c9_counterexample :
    c9_manager.global_callbacks = [9] ∧
    (c9_manager.fire 0 (fun n => n == 0) c9_event).1 = [(0, c9_event)] ∧
    ¬ (9, c9_event) ∈ (c9_manager.fire 0 (fun n => n == 0) c9_event).1 ∧
    (c9_manager.fire 0 (fun n => n == 0) c9_event).2 = true := by
  decide

/-- C9 amended: a global callback registered with `add_global_callback` at any time —
in particular after watchers were created — is invoked on every subsequent
trigger (whose user callback returns normally), because the wrapped callback
reads the manager's live `global_callbacks` list at trigger time rather than a
snapshot; indeed every callback in the list at trigger time receives the
event. -/
theorem c9_live_global_callbacks :
    (∀ (m : PixelWatcherManager) (cb user : ℕ) (raises : ℕ → Bool)
       (ev : PixelEventData),
      raises user = false →
      (cb, ev) ∈ ((m.add_global_callback cb).fire user raises ev).1 ∧
      ∀ g ∈ (m.add_global_callback cb).global_callbacks,
        (g, ev) ∈ ((m.add_global_callback cb).fire user raises ev).1) ∧
    (∀ (m : TemplateWatcherManager) (cb user : ℕ) (raises : ℕ → Bool)
       (ev : TemplateEventData),
      raises user = false →
      (cb, ev) ∈ ((m.add_global_callback cb).fire user raises ev).1 ∧
      ∀ g ∈ (m.add_global_callback cb).global_callbacks,
        (g, ev) ∈ ((m.add_global_callback cb).fire user raises ev).1) := by
  constructor
  · intro m cb user raises ev hr
    constructor
    · exact wrapped_callback_run_mem user (m.global_callbacks ++ [cb]) raises ev hr cb
        (by simp)
    · intro g hg
      exact wrapped_callback_run_mem user (m.global_callbacks ++ [cb]) raises ev hr g hg
  · intro m cb user raises ev hr
    constructor
    · exact wrapped_callback_run_mem user (m.global_callbacks ++ [cb]) raises ev hr cb
        (by simp)
    · intro g hg
      exact wrapped_callback_run_mem user (m.global_callbacks ++ [cb]) raises ev hr g hg

/-- C9 witness: a callback (id 7) added to a manager that already had callback
5 registered is invoked on a subsequent trigger, for both manager kinds. -/
theorem c9_witness :
    ((fun _ : ℕ => false) 0 = false ∧
      (7, c9_event) ∈
        (((PixelWatcherManager.empty.add_global_callback 5).add_global_callback 7).fire
          0 (fun _ => false) c9_event).1) ∧
    ((fun _ : ℕ => false) 0 = false ∧
      (7, c9_t_event) ∈
        ((TemplateWatcherManager.empty.add_global_callback 7).fire
          0 (fun _ => false) c9_t_event).1) :=
  ⟨⟨rfl, (c9_live_global_callbacks.1 (PixelWatcherManager.empty.add_global_callback 5)
      7 0 (fun _ => false) c9_event rfl).1⟩,
    ⟨rfl, (c9_live_global_callbacks.2 TemplateWatcherManager.empty
      7 0 (fun _ => false) c9_t_event rfl).1⟩⟩

/-! ### Claim C7 -/

/-- C7: for a running level-triggered color-match watcher with cooldown C > 0
whose first qualifying poll at time t is past its cooldown window, three
qualifying polls at times t, t + ε (ε < C) and t + C + ε behave as claimed:
the poll at t triggers, the poll at t + ε is suppressed by the cooldown
(leaving the state untouched), and the poll at t + C + ε — at least C after
the trigger at t — triggers again. -/
theorem c7_cooldown_spec (w : PersistentPixelWatcher) (tc ca cb cc : Color)
    (t eps C : ℚ)
    (hC : 0 < C) (heps : 0 ≤ eps) (hlt : eps < C)
    (hcool : w.config.cooldown = C)
    (hle : w.loop_exited = false) (hrun : w.running = true)
    (hen : w.config.enabled = true) (honce : w.config.trigger_once = false)
    (hev : w.config.event_type = WatcherEvent.color_match)
    (ht : w.config.target_color = some tc)
    (hq1 : colors_match ca tc w.config.tolerance = true)
    (hq2 : colors_match cb tc w.config.tolerance = true)
    (hq3 : colors_match cc tc w.config.tolerance = true)
    (hfirst : C ≤ t - w.last_trigger_time) :
    (w.watch_tick ⟨t, some ca, false⟩).fired.isSome = true ∧
    ((w.watch_tick ⟨t, some ca, false⟩).watcher.watch_tick
      ⟨t + eps, some cb, false⟩).fired = none ∧
    (((w.watch_tick ⟨t, some ca, false⟩).watcher.watch_tick
        ⟨t + eps, some cb, false⟩).watcher.watch_tick
      ⟨t + C + eps, some cc, false⟩).fired.isSome = true := by
  have hsc1 : w.should_check t = true :=
    should_check_of_le w t (by rw [hcool]; exact hfirst)
  have e1 : w.watch_tick ⟨t, some ca, false⟩ =
      ⟨(w.trigger_event t false).1,
        some { event_type := WatcherEvent.color_match
               position := (w.config.x, w.config.y)
               current_color := get_pixel_color (some ca)
               previous_color := none
               target_color := some tc
               color_difference := none
               trigger_count := w.trigger_count + 1
               timestamp := t },
        some (w.trigger_event t false).2⟩ :=
    (watch_tick_match_eq w ⟨t, some ca, false⟩ hle hrun hen hsc1 hev).trans
      (check_color_match_eq_of_match w (get_pixel_color (some ca)) t false tc ht hq1)
  have etr := trigger_event_eq_normal w t honce
  rw [e1, etr]
  dsimp only
  set w1 : PersistentPixelWatcher :=
    { w with trigger_count := w.trigger_count + 1, last_trigger_time := t } with hw1
  have hle1 : w1.loop_exited = false := hle
  have hrun1 : w1.running = true := hrun
  have hen1 : w1.config.enabled = true := hen
  have hsc2 : w1.should_check (t + eps) = false := by
    apply should_check_false_of_lt
    · show 0 < w.config.cooldown
      rw [hcool]
      exact hC
    · show (t + eps) - t < w.config.cooldown
      rw [hcool]
      linarith
  rw [watch_tick_skip w1 ⟨t + eps, some cb, false⟩ hle1 hrun1 hen1 hsc2]
  dsimp only
  have hsc3 : w1.should_check (t + C + eps) = true := by
    apply should_check_of_le
    show w.config.cooldown ≤ (t + C + eps) - t
    rw [hcool]
    linarith
  have e3 : w1.watch_tick ⟨t + C + eps, some cc, false⟩ =
      ⟨(w1.trigger_event (t + C + eps) false).1,
        some { event_type := WatcherEvent.color_match
               position := (w1.config.x, w1.config.y)
               current_color := get_pixel_color (some cc)
               previous_color := none
               target_color := some tc
               color_difference := none
               trigger_count := w1.trigger_count + 1
               timestamp := t + C + eps },
        some (w1.trigger_event (t + C + eps) false).2⟩ :=
    (watch_tick_match_eq w1 ⟨t + C + eps, some cc, false⟩ hle1 hrun1 hen1 hsc3
        (hev : w1.config.event_type = WatcherEvent.color_match)).trans
      (check_color_match_eq_of_match w1 (get_pixel_color (some cc)) (t + C + eps) false
        tc (ht : w1.config.target_color = some tc)
        (hq3 : colors_match (get_pixel_color (some cc)) tc w1.config.tolerance = true))
  rw [e3]
  exact ⟨rfl, rfl, rfl⟩

/-- C7 witness: the cooldown scenario at a concrete watcher with C = 2,
t = 5, ε = 1 and three matching samples. -/
theorem c7_witness :
    (0 : ℚ) < 2 ∧ (0 : ℚ) ≤ 1 ∧ (1 : ℚ) < 2 ∧
    c7_watcher.config.cooldown = 2 ∧
    colors_match ⟨10, 20, 30⟩ ⟨10, 20, 30⟩ c7_watcher.config.tolerance = true ∧
    c7_watcher.config.cooldown ≤ 5 - c7_watcher.last_trigger_time ∧
    ((c7_watcher.watch_tick ⟨5, some ⟨10, 20, 30⟩, false⟩).fired.isSome = true ∧
      ((c7_watcher.watch_tick ⟨5, some ⟨10, 20, 30⟩, false⟩).watcher.watch_tick
        ⟨5 + 1, some ⟨10, 20, 30⟩, false⟩).fired = none ∧
      (((c7_watcher.watch_tick ⟨5, some ⟨10, 20, 30⟩, false⟩).watcher.watch_tick
          ⟨5 + 1, some ⟨10, 20, 30⟩, false⟩).watcher.watch_tick
        ⟨5 + 2 + 1, some ⟨10, 20, 30⟩, false⟩).fired.isSome = true) :=
  ⟨by norm_num, by norm_num, by norm_num, rfl, by decide, by norm_num [c7_watcher, PersistentPixelWatcher.start, PersistentPixelWatcher.init],
    c7_cooldown_spec c7_watcher ⟨10, 20, 30⟩ ⟨10, 20, 30⟩ ⟨10, 20, 30⟩ ⟨10, 20, 30⟩
      5 1 2 (by norm_num) (by norm_num) (by norm_num) rfl rfl rfl rfl rfl rfl rfl
      (by decide) (by decide) (by decide) (by norm_num [c7_watcher, PersistentPixelWatcher.start, PersistentPixelWatcher.init])⟩

/-! ### Claim C10 -/

/-- C10: on every tick (pixel or template) on which a trigger fires — whether
or not the callback raises — `trigger_count` is incremented and
`last_trigger_time` is set to the tick's time before the callback runs: the
pair the watcher holds at the moment the callback is invoked is exactly
`(ev.trigger_count, now)`, and the event record's trigger_count field equals
the updated count.  Since this holds for raising ticks too, a raising callback
still counts as a trigger and still opens the cooldown window. -/
theorem c10_bookkeeping :
    (∀ (w : PersistentPixelWatcher) (t : PixelTick) (ev : PixelEventData),
      (w.watch_tick t).fired = some ev →
      ev.trigger_count = w.trigger_count + 1 ∧
      (w.watch_tick t).watcher.trigger_count = w.trigger_count + 1 ∧
      (w.watch_tick t).watcher.last_trigger_time = t.now ∧
      (w.watch_tick t).callback_saw = some (ev.trigger_count, t.now)) ∧
    (∀ (w : PersistentTemplateWatcher) (t : TemplateTick) (ev : TemplateEventData),
      (w.watch_tick t).fired = some ev →
      ev.trigger_count = w.trigger_count + 1 ∧
      (w.watch_tick t).watcher.trigger_count = w.trigger_count + 1 ∧
      (w.watch_tick t).watcher.last_trigger_time = t.now ∧
      (w.watch_tick t).callback_saw = some (ev.trigger_count, t.now)) := by
  constructor
  · intro w t ev h
    have hs := pixel_fired_spec w t ev h
    exact ⟨hs.1, hs.2.2.1, hs.2.2.2.1, by rw [hs.1]; exact hs.2.2.2.2.1⟩
  · intro w t ev h
    have hs := template_fired_spec w t ev h
    exact ⟨hs.1, hs.2.2.1, hs.2.2.2.1, by rw [hs.1]; exact hs.2.2.2.2.1⟩

/-- C10 witness: a pixel trigger and a template trigger, both on ticks whose
callback raises, still update the bookkeeping before the callback runs. -/
theorem c10_witness :
    ((c10_watcher.watch_tick ⟨1, some ⟨1, 2, 3⟩, true⟩).fired =
      some { event_type := WatcherEvent.color_match, position := (5, 5)
             current_color := ⟨1, 2, 3⟩, previous_color := none
             target_color := some ⟨1, 2, 3⟩, color_difference := none
             trigger_count := 1, timestamp := 1 } ∧
      (c10_watcher.watch_tick ⟨1, some ⟨1, 2, 3⟩, true⟩).watcher.trigger_count = 1 ∧
      (c10_watcher.watch_tick ⟨1, some ⟨1, 2, 3⟩, true⟩).watcher.last_trigger_time = 1 ∧
      (c10_watcher.watch_tick ⟨1, some ⟨1, 2, 3⟩, true⟩).callback_saw = some (1, 1)) ∧
    ((c10_t_watcher.watch_tick ⟨1, none, true⟩).fired =
      some { event_type := TemplateWatcherEvent.template_lost, tmatch := none
             previous_match := none, movement_distance_sq := none
             template_path := "u.png", timestamp := 1, trigger_count := 1
             template_present := false } ∧
      (c10_t_watcher.watch_tick ⟨1, none, true⟩).watcher.trigger_count = 1 ∧
      (c10_t_watcher.watch_tick ⟨1, none, true⟩).watcher.last_trigger_time = 1 ∧
      (c10_t_watcher.watch_tick ⟨1, none, true⟩).callback_saw = some (1, 1)) := by
  have h1 := c10_bookkeeping.1 c10_watcher ⟨1, some ⟨1, 2, 3⟩, true⟩
    { event_type := WatcherEvent.color_match, position := (5, 5)
      current_color := ⟨1, 2, 3⟩, previous_color := none
      target_color := some ⟨1, 2, 3⟩, color_difference := none
      trigger_count := 1, timestamp := 1 } (by decide)
  have h2 := c10_bookkeeping.2 c10_t_watcher ⟨1, none, true⟩
    { event_type := TemplateWatcherEvent.template_lost, tmatch := none
      previous_match := none, movement_distance_sq := none
      template_path := "u.png", timestamp := 1, trigger_count := 1
      template_present := false } (by decide)
  exact ⟨⟨by decide, h1.2.1, h1.2.2.1, by rw [h1.2.2.2]⟩,
    ⟨by decide, h2.2.1, h2.2.2.1, by rw [h2.2.2.2]⟩⟩

end BpsrAutofish
